import Mathlib

/-!
Shallow embedding of the CozyStack resource-reconciliation core
(`instances/cozystack/adapter.go` and `instances/cozystack/disk_manager.go`):
the flavor catalog, the document-to-domain converters, the create/delete
workflows with compensation, the cache refresh operations and the status
monitor, together with theorems settling the claims about them.

Go runtime behaviour is modelled explicitly: a Go function that can panic
is embedded with result type `GoResult`, whose `crash` constructor marks a
panic (failed type assertion, out-of-range string slice); the `fail`
constructor is an ordinary returned `error`.  Strings are treated as
sequences of characters, which agrees with Go's byte-level slicing on the
ASCII data appearing in this code base.  Go's `int` is 64-bit under the
repository's build (`golang:1.23`, linux/amd64); conversions to `int32`
are modelled by two's-complement wrapping on `Int`.
-/

namespace Cozystack

/-- Outcome of an embedded Go computation: `crash` is a Go panic,
`fail` is a returned non-nil `error`, `ok` is a normal result. -/
inductive GoResult (α : Type) where
  | crash (msg : String)
  | fail (msg : String)
  | ok (a : α)
  deriving Repr, DecidableEq

namespace GoResult

def map (f : α → β) : GoResult α → GoResult β
  | .crash m => .crash m
  | .fail m => .fail m
  | .ok a => .ok (f a)

def isOk : GoResult α → Bool
  | .ok _ => true
  | _ => false

def isFail : GoResult α → Bool
  | .fail _ => true
  | _ => false

def isCrash : GoResult α → Bool
  | .crash _ => true
  | _ => false

end GoResult

/-- Dynamic values of Kubernetes `unstructured` documents
(`map[string]interface{}` trees). -/
inductive GoVal where
  | vnull
  | vbool (b : Bool)
  | vint (n : Int)
  | vstr (s : String)
  | vlist (xs : List GoVal)
  | vmap (fields : List (String × GoVal))

/-- A top-level unstructured object (`map[string]interface{}`). -/
abbrev Obj := List (String × GoVal)

/-- Association-list lookup, first binding wins (Go map read). -/
def lookupKey : Obj → String → Option GoVal
  | [], _ => none
  | (k, v) :: rest, key => if k = key then some v else lookupKey rest key

/-- Association-list upsert (Go map write): replaces an existing binding
for the key, otherwise appends. -/
def upsert (k : String) (v : α) : List (String × α) → List (String × α)
  | [] => [(k, v)]
  | (k2, v2) :: rest => if k2 = k then (k, v) :: rest else (k2, v2) :: upsert k v rest

/-- Association-list delete (Go `delete(m, k)`). -/
def removeKey (k : String) : List (String × α) → List (String × α)
  | [] => []
  | (k2, v2) :: rest => if k2 = k then removeKey k rest else (k2, v2) :: removeKey k rest

/-- Result of the `unstructured.NestedMap` / `NestedString` / `NestedSlice`
accessors: absent field, present with the wrong type, or found. -/
inductive Nested (α : Type) where
  | missing
  | typeErr
  | found (a : α)

def nestedMap (obj : Obj) (key : String) : Nested Obj :=
  match lookupKey obj key with
  | none => .missing
  | some (.vmap m) => .found m
  | some _ => .typeErr

def nestedString (obj : Obj) (key : String) : Nested String :=
  match lookupKey obj key with
  | none => .missing
  | some (.vstr s) => .found s
  | some _ => .typeErr

def nestedSlice (obj : Obj) (key : String) : Nested (List GoVal) :=
  match lookupKey obj key with
  | none => .missing
  | some (.vlist xs) => .found xs
  | some _ => .typeErr

/-- Go unchecked type assertion `v.(string)` applied to a map read:
panics when the field is absent (`nil.(string)`) or not a string. -/
def assertStr (v : Option GoVal) : GoResult String :=
  match v with
  | some (.vstr s) => .ok s
  | _ => .crash "interface conversion: interface is not string"

/-- Go unchecked type assertion `v.(map[string]interface{})` on a map read. -/
def assertMap (v : Option GoVal) : GoResult Obj :=
  match v with
  | some (.vmap m) => .ok m
  | _ => .crash "interface conversion: interface is not map"

/-- Go string slice `s[:n]`: panics when `n` exceeds the length. -/
def goSliceTo (s : String) (n : Nat) : GoResult String :=
  if n ≤ s.data.length then .ok ⟨s.data.take n⟩
  else .crash "slice bounds out of range"

/-- Go `strings.Contains`. -/
def goContains (s sub : String) : Bool :=
  (List.range (s.data.length + 1)).any fun i => sub.data.isPrefixOf (s.data.drop i)

/-- Go `fmt.Sprintf("%v", x)` on a dynamic value, as used by the
instance-manager converter to stringify labels and phases. -/
def goSprintf : GoVal → String
  | .vnull => "<nil>"
  | .vbool b => if b then "true" else "false"
  | .vint n => toString n
  | .vstr s => s
  | .vlist _ => "[...]"
  | .vmap _ => "map[...]"

/-- Decimal digits to a number. -/
def digitsToNat (ds : List Char) : Nat :=
  ds.foldl (fun acc c => acc * 10 + (c.toNat - '0'.toNat)) 0

/-- Go `strconv.Atoi`: optional sign followed by at least one digit. -/
def goAtoi (s : String) : Option Int :=
  match s.data with
  | [] => none
  | '-' :: ds =>
    if ds.length > 0 && ds.all (·.isDigit) then some (-(digitsToNat ds : Int)) else none
  | '+' :: ds =>
    if ds.length > 0 && ds.all (·.isDigit) then some (digitsToNat ds : Int) else none
  | ds =>
    if ds.all (·.isDigit) then some (digitsToNat ds : Int) else none

/-- Two's-complement wrap of a Go `int` into `int32`. -/
def toInt32 (n : Int) : Int :=
  (n + 2 ^ 31) % 2 ^ 32 - 2 ^ 31

/-! ## Domain model (`gqlfed/instances/graph/model`) -/

structure FlavorInfo where
  vcpus : String
  ram : String
  price : String
  deriving Repr, DecidableEq

/-- The `Flavor` union: BaseFlavor, HiFreqFlavor, PremiumFlavor, ProFlavor. -/
inductive Flavor where
  | base (originalName vcpus ram rubMonth : String)
  | hiFreq (originalName vcpus ram rubMonth : String)
  | premium (originalName vcpus ram rubMonth : String)
  | pro (originalName vcpus ram rubMonth : String)
  deriving Repr, DecidableEq

structure Disk where
  diskID : String
  sizeGb : Int
  bootable : Bool
  status : String
  deriving Repr, DecidableEq

structure Network where
  networkID : String
  networkName : String
  cidr : String
  gatewayIP : String
  isPublic : Bool
  ipv4 : String
  availabilityZone : String
  region : String
  securityGroupID : String
  deriving Repr, DecidableEq

structure Instance where
  instanceID : String
  projectID : String
  name : String
  status : String
  created : String
  updated : String
  keyName : String
  locked : Bool
  loading : Bool
  powerState : String
  ipv4 : String
  flavor : Option Flavor
  attachedDisks : List Disk
  attachedNetworks : List Network
  deriving Repr, DecidableEq

/-! ## Flavor catalog (`parseFlavorType`, adapter.go 694-754) -/

def baseFlavors : List (String × FlavorInfo) :=
  [("u1.xsmall", ⟨"1", "2Gi", "500"⟩),
   ("u1.small", ⟨"1", "4Gi", "700"⟩),
   ("u1.medium", ⟨"2", "4Gi", "900"⟩),
   ("u1.2xmedium", ⟨"2", "8Gi", "1200"⟩),
   ("u1.large", ⟨"4", "8Gi", "1600"⟩)]

def hiFreqFlavors : List (String × FlavorInfo) :=
  [("uf1.small", ⟨"1", "4Gi", "1000"⟩),
   ("uf1.medium", ⟨"2", "8Gi", "1800"⟩),
   ("uf1.large", ⟨"4", "16Gi", "3000"⟩)]

def premiumFlavors : List (String × FlavorInfo) :=
  [("p1.medium", ⟨"2", "8Gi", "2000"⟩),
   ("p1.large", ⟨"4", "16Gi", "3500"⟩),
   ("p1.xlarge", ⟨"8", "32Gi", "6000"⟩)]

def proFlavors : List (String × FlavorInfo) :=
  [("pro1.large", ⟨"4", "32Gi", "5000"⟩),
   ("pro1.xlarge", ⟨"8", "64Gi", "9000"⟩)]

def flavorMap : List (String × List (String × FlavorInfo)) :=
  [("base", baseFlavors),
   ("hi-freq", hiFreqFlavors),
   ("premium", premiumFlavors),
   ("pro", proFlavors)]

def defaultFlavorInfo : FlavorInfo := ⟨"2", "4Gi", "1000"⟩

/-- Table lookup in `parseFlavorType`: the category's table keyed by the
exact instance-type string, defaulting to (2 vCPU, 4Gi, 1000). -/
def lookupFlavorInfo (category instanceType : String) : FlavorInfo :=
  match flavorMap.lookup category with
  | some tbl => (tbl.lookup instanceType).getD defaultFlavorInfo
  | none => defaultFlavorInfo

/-- Embedding of `parseFlavorType` (adapter.go 701-754).  The prefix checks
are performed in source order: `instanceType[:2] == "uf"`, then
`instanceType[:1] == "p"`, then `instanceType[:3] == "pro"`, else base;
each Go slice panics when the string is shorter than the slice bound. -/
def parseFlavorType (instanceType : String) : GoResult (String × FlavorInfo) :=
  match goSliceTo instanceType 2 with
  | .crash m => .crash m
  | .fail m => .fail m
  | .ok p2 =>
    if p2 = "uf" then .ok ("hi-freq", lookupFlavorInfo "hi-freq" instanceType)
    else
      match goSliceTo instanceType 1 with
      | .crash m => .crash m
      | .fail m => .fail m
      | .ok p1 =>
        if p1 = "p" then .ok ("premium", lookupFlavorInfo "premium" instanceType)
        else
          match goSliceTo instanceType 3 with
          | .crash m => .crash m
          | .fail m => .fail m
          | .ok p3 =>
            if p3 = "pro" then .ok ("pro", lookupFlavorInfo "pro" instanceType)
            else .ok ("base", lookupFlavorInfo "base" instanceType)

/-- The `switch flavorCategory` blocks building a `model.Flavor`; with no
default case, a category outside the four tags leaves the interface nil
(`none`). -/
def mkFlavor (category originalName : String) (info : FlavorInfo) : Option Flavor :=
  if category = "base" then some (.base originalName info.vcpus info.ram info.price)
  else if category = "hi-freq" then some (.hiFreq originalName info.vcpus info.ram info.price)
  else if category = "premium" then some (.premium originalName info.vcpus info.ram info.price)
  else if category = "pro" then some (.pro originalName info.vcpus info.ram info.price)
  else none

instance : Monad GoResult where
  pure := .ok
  bind x f :=
    match x with
    | .crash m => .crash m
    | .fail m => .fail m
    | .ok a => f a

/-- Effective object seen by the converters after a `NestedMap` whose
failure is replaced by an empty map (or whose `nil` result reads as
empty). -/
def effNested (n : Nested Obj) : Obj :=
  match n with
  | .found m => m
  | _ => []

/-! ## Cluster-status to domain-status translation (adapter.go 602-629) -/

def vmStatusMap : List (String × String) :=
  [("Creating", "PROVISIONING"), ("Pending", "PROVISIONING"),
   ("Running", "ACTIVE"), ("Succeeded", "ACTIVE"),
   ("Failed", "ERROR"), ("Unknown", "UNKNOWN")]

def vmPowerStateMap : List (String × String) :=
  [("Creating", "STARTING"), ("Pending", "STARTING"),
   ("Running", "ACTIVE"), ("Succeeded", "ACTIVE"),
   ("Failed", "STOPPED"), ("Unknown", "UNKNOWN")]

def diskStatusMap : List (String × String) :=
  [("Creating", "CREATING"), ("Pending", "CREATING"),
   ("Ready", "ACTIVE"), ("Succeeded", "ACTIVE"),
   ("Failed", "ERROR"), ("Unknown", "UNKNOWN")]

/-! ## Resource converters -/

/-- Disk-status computation of `convertToDiskModel`: `"UNKNOWN"` when the
phase field is absent, the table image when the phase is a known key,
the raw phase string otherwise; a non-string phase panics
(`phase.(string)`). -/
def diskStatusOfPhase (phase : Option GoVal) : GoResult String :=
  match phase with
  | none => .ok "UNKNOWN"
  | some (.vstr p) => .ok ((diskStatusMap.lookup p).getD p)
  | some _ => .crash "interface conversion: interface is not string"

/-- Size computation of `convertToDiskModel`: parse `<n>Gi` storage
strings, defaulting to 20. -/
def sizeGBOfStorage (st : Nested String) : Int :=
  match st with
  | .found storageStr =>
    if storageStr.data.length > 2 &&
        (⟨storageStr.data.drop (storageStr.data.length - 2)⟩ : String) == "Gi" then
      match goAtoi ⟨storageStr.data.take (storageStr.data.length - 2)⟩ with
      | some n => n
      | none => 20
    else 20
  | _ => 20

/-- The phase field as the converters see it (a read of `status["phase"]`
on the effective status object). -/
def phaseOf (obj : Obj) : Option GoVal :=
  lookupKey (effNested (nestedMap obj "status")) "phase"

/-- Decidable view of the phase field: absent, present but not a
string, or the phase string. -/
inductive PhaseView where
  | absent
  | nonString
  | str (s : String)
  deriving Repr, DecidableEq

def phaseView (obj : Obj) : PhaseView :=
  match phaseOf obj with
  | none => .absent
  | some (.vstr s) => .str s
  | some _ => .nonString

namespace Adapter

/-- Embedding of the package-level `convertToDiskModel`
(adapter.go 777-835). -/
def convertToDiskModel (obj : Obj) : GoResult Disk :=
  match assertMap (lookupKey obj "metadata") with
  | .crash m => .crash m
  | .fail m => .fail m
  | .ok metadata =>
    match nestedMap obj "spec" with
    | .found spec =>
      match assertStr (lookupKey metadata "name") with
      | .crash m => .crash m
      | .fail m => .fail m
      | .ok diskID =>
        let sizeGB := sizeGBOfStorage (nestedString spec "storage")
        match diskStatusOfPhase (lookupKey (effNested (nestedMap obj "status")) "phase") with
        | .crash m => .crash m
        | .fail m => .fail m
        | .ok diskStatus => .ok ⟨diskID, toInt32 sizeGB, true, diskStatus⟩
    | _ => .fail "spec not found in Disk object"

/-- Intermediate values of `convertToInstanceModel` feeding the final
`model.Instance` literal. -/
structure ConvParts where
  instanceID : String
  projectID : String
  hostname : String
  apiStatus : String
  powerState : String
  ipv4 : String
  flavor : Option Flavor
  attachedDisks : List Disk
  creationTime : String
  deriving Repr, DecidableEq

/-- The `spec.disks` loop of `convertToInstanceModel` (adapter.go
641-668): items that are not maps or lack a string name are skipped;
known disks come from the cache, unknown ones become a 20Gi stub with
UNKNOWN status. -/
def collectDisks (diskCache : List (String × Disk)) : List GoVal → List Disk
  | [] => []
  | d :: rest =>
    match d with
    | .vmap dm =>
      match lookupKey dm "name" with
      | some (.vstr nm) =>
        (match diskCache.lookup nm with
         | some dsk => dsk
         | none => ⟨nm, 20, true, "UNKNOWN"⟩) :: collectDisks diskCache rest
      | _ => collectDisks diskCache rest
    | _ => collectDisks diskCache rest

/-- Embedding of `CozyStackAdapter.convertToInstanceModel`
(adapter.go 525-691) up to the final record literal.  Unchecked type
assertions (`metadata["name"].(string)`, label values, `phase.(string)`,
`addresses[0].(string)`, `creationTimestamp`) and the string slices
inside `parseFlavorType` crash; a missing or non-map `spec` is a
returned error. -/
def convertCore (obj : Obj) (diskCache : List (String × Disk)) : GoResult ConvParts := do
  let metadata ← assertMap (lookupKey obj "metadata")
  match nestedMap obj "spec" with
  | .found spec => do
    let status := effNested (nestedMap obj "status")
    let instanceID ← assertStr (lookupKey metadata "name")
    let labels := effNested (nestedMap metadata "labels")
    let projectID ← match lookupKey labels "project-id" with
      | none => pure ""
      | some v => assertStr (some v)
    let hostname ← match lookupKey labels "hostname" with
      | none => pure instanceID
      | some v => assertStr (some v)
    let instanceType := match nestedString spec "instanceType" with
      | .found s => s
      | _ => ""
    let catInfo ← parseFlavorType instanceType
    let flavor := mkFlavor catInfo.1 instanceType catInfo.2
    let vmStatus ← match lookupKey status "phase" with
      | none => pure "UNKNOWN"
      | some v => assertStr (some v)
    let apiStatus := (vmStatusMap.lookup vmStatus).getD "UNKNOWN"
    let powerState := (vmPowerStateMap.lookup vmStatus).getD "UNKNOWN"
    let ipv4 ← match lookupKey status "externalAccess" with
      | some (.vmap ea) =>
        match lookupKey ea "externalAddresses" with
        | some (.vlist (a :: _)) => assertStr (some a)
        | _ => pure ""
      | _ => pure ""
    let disks := match nestedSlice spec "disks" with
      | .found ds => collectDisks diskCache ds
      | _ => []
    let creationTime ← assertStr (lookupKey metadata "creationTimestamp")
    pure (⟨instanceID, projectID, hostname, apiStatus, powerState, ipv4,
           flavor, disks, creationTime⟩ : ConvParts)
  | _ => .fail "spec not found in VM object"

/-- The final `model.Instance` literal of `convertToInstanceModel`
(adapter.go 674-688); `Loading` is computed from the status pair, and
`Updated` is the injected current time. -/
def buildInstance (now : String) (p : ConvParts) : Instance :=
  { instanceID := p.instanceID
    projectID := p.projectID
    name := p.hostname
    status := p.apiStatus
    created := p.creationTime
    updated := now
    keyName := ""
    locked := false
    loading := p.apiStatus == "PROVISIONING" || p.powerState == "STARTING"
    powerState := p.powerState
    ipv4 := p.ipv4
    flavor := p.flavor
    attachedDisks := p.attachedDisks
    attachedNetworks := [] }

def convertToInstanceModel (now : String) (obj : Obj)
    (diskCache : List (String × Disk)) : GoResult Instance :=
  (convertCore obj diskCache).map (buildInstance now)

end Adapter

namespace DiskManager

/-- Embedding of `DiskManager.convertToDiskModel`
(disk_manager.go 388-450): identical to the adapter version except that
`SizeGb` is stored without the `int32` cast. -/
def convertToDiskModel (obj : Obj) : GoResult Disk :=
  match assertMap (lookupKey obj "metadata") with
  | .crash m => .crash m
  | .fail m => .fail m
  | .ok metadata =>
    match nestedMap obj "spec" with
    | .found spec =>
      match assertStr (lookupKey metadata "name") with
      | .crash m => .crash m
      | .fail m => .fail m
      | .ok diskID =>
        let sizeGB := sizeGBOfStorage (nestedString spec "storage")
        match diskStatusOfPhase (lookupKey (effNested (nestedMap obj "status")) "phase") with
        | .crash m => .crash m
        | .fail m => .fail m
        | .ok diskStatus => .ok ⟨diskID, sizeGB, true, diskStatus⟩
    | _ => .fail "spec not found in disk object"

end DiskManager

namespace InstanceManager

/-- Intermediate values of `InstanceManager.convertToInstanceModel`
feeding the final record literal (disk_manager.go 1155-1186). -/
structure MConvParts where
  instanceID : String
  projectID : String
  hostname : String
  region : String
  apiStatus : String
  powerState : String
  ipv4 : String
  flavor : Option Flavor
  attachedDisks : List Disk
  creationTime : String
  deriving Repr, DecidableEq

/-- The synthesized default network (disk_manager.go 1156-1166). -/
def defaultNetwork (region ipv4 : String) : Network :=
  { networkID := "default-net"
    networkName := "Default Network"
    cidr := "192.168.0.0/24"
    gatewayIP := "192.168.0.1"
    isPublic := true
    ipv4 := ipv4
    availabilityZone := region
    region := region
    securityGroupID := "default-sg" }

/-- The final `model.Instance` literal of
`InstanceManager.convertToInstanceModel` (disk_manager.go 1169-1186). -/
def buildInstance (now : String) (p : MConvParts) : Instance :=
  { instanceID := p.instanceID
    projectID := p.projectID
    name := p.hostname
    status := p.apiStatus
    created := p.creationTime
    updated := now
    keyName := ""
    locked := false
    loading := p.apiStatus == "PROVISIONING" || p.powerState == "STARTING"
    powerState := p.powerState
    ipv4 := p.ipv4
    flavor := p.flavor
    attachedDisks := p.attachedDisks
    attachedNetworks := [defaultNetwork p.region p.ipv4] }

end InstanceManager

/-! ## Workflow embeddings

Cluster calls are embedded with oracle parameters carrying the result the
cluster returns for each request (`Option String`: `none` is success,
`some e` the error message; `Except String Obj` for reads).  Each
operation also returns the trace of cluster requests it issued, so that
statements about what was created or deleted before a failure are
expressible. -/

/-- A cluster request issued by a workflow. -/
inductive ClusterAction where
  | getVM (id : String)
  | createVM (id : String)
  | deleteVM (id : String)
  | getDisk (id : String)
  | createDisk (id : String)
  | deleteDisk (id : String)
  | updateDisk (id : String) (storage : String)
  deriving Repr, DecidableEq

/-- GraphQL `NewInstanceInput`. -/
structure NewInstanceInput where
  id : String
  hostname : String
  region : String
  instanceType : String
  imageID : String
  deriving Repr, DecidableEq

/-- Cache state of `CozyStackAdapter`. -/
structure AdapterState where
  instanceCache : List (String × Instance)
  diskCache : List (String × Disk)
  deriving Repr, DecidableEq

/-- Cache state of `DiskManager`. -/
structure DMState where
  diskCache : List (String × Disk)
  deriving Repr, DecidableEq

/-- Cache state of `InstanceManager` together with its owned
`DiskManager`. -/
structure IMState where
  instanceCache : List (String × Instance)
  dm : DMState
  deriving Repr, DecidableEq

namespace Adapter

/-- Embedding of `CozyStackAdapter.CreateInstance` (adapter.go 95-249).
The disk id and instance id are derived from the input id; there is no
existence pre-check.  On instance-creation failure the just-created disk
is deleted and the delete's outcome (`diskDeleteErr`) is discarded.  On
success the synthesized PROVISIONING instance is upserted into the
cache. -/
def CreateInstance (now : String) (st : AdapterState) (input : NewInstanceInput)
    (diskCreateErr instCreateErr _diskDeleteErr : Option String) :
    GoResult Instance × List ClusterAction × AdapterState :=
  let diskID := "vmd-" ++ input.id
  match diskCreateErr with
  | some e => (.fail ("failed to create disk: " ++ e), [.createDisk diskID], st)
  | none =>
    let instanceID := "vmi-" ++ input.id
    match instCreateErr with
    | some e =>
      (.fail ("failed to create VM: " ++ e),
       [.createDisk diskID, .createVM instanceID, .deleteDisk diskID], st)
    | none =>
      match parseFlavorType input.instanceType with
      | .crash m => (.crash m, [.createDisk diskID, .createVM instanceID], st)
      | .fail m => (.fail m, [.createDisk diskID, .createVM instanceID], st)
      | .ok catInfo =>
        let inst : Instance :=
          { instanceID := instanceID
            projectID := input.id
            name := input.hostname
            status := "PROVISIONING"
            created := now
            updated := now
            keyName := ""
            locked := false
            loading := true
            powerState := "STARTING"
            ipv4 := ""
            flavor := mkFlavor catInfo.1 input.instanceType catInfo.2
            attachedDisks := [⟨diskID, 20, true, "CREATING"⟩]
            attachedNetworks := [] }
        (.ok inst, [.createDisk diskID, .createVM instanceID],
         { st with instanceCache := upsert instanceID inst st.instanceCache })

/-- Embedding of `CozyStackAdapter.DeleteInstance` (adapter.go 252-289).
Any failure of the cluster instance delete, including a not-found
response, is returned to the caller; on success the per-disk cluster
deletes are issued (their failures only logged) and the instance and its
disks are removed from the caches. -/
def DeleteInstance (st : AdapterState) (instanceID : String)
    (instDeleteErr : Option String) :
    GoResult Bool × List ClusterAction × AdapterState :=
  let diskIDs : List String :=
    match st.instanceCache.lookup instanceID with
    | some inst => inst.attachedDisks.map (fun d => d.diskID)
    | none => []
  match instDeleteErr with
  | some e => (.fail ("failed to delete VM: " ++ e), [.deleteVM instanceID], st)
  | none =>
    (.ok true, .deleteVM instanceID :: diskIDs.map .deleteDisk,
     ⟨removeKey instanceID st.instanceCache,
      diskIDs.foldl (fun m d => removeKey d m) st.diskCache⟩)

/-- Disk half of `refreshCache` (adapter.go 349-356): converted disks
are collected into a fresh map, items whose conversion returns an error
are skipped, a conversion panic aborts the process. -/
def buildDiskMap (acc : List (String × Disk)) : List Obj → GoResult (List (String × Disk))
  | [] => .ok acc
  | o :: rest =>
    match convertToDiskModel o with
    | .crash m => .crash m
    | .fail _ => buildDiskMap acc rest
    | .ok d => buildDiskMap (upsert d.diskID d acc) rest

/-- Instance half of `refreshCache` (adapter.go 358-366). -/
def buildInstanceMap (now : String) (diskMap : List (String × Disk))
    (acc : List (String × Instance)) : List Obj → GoResult (List (String × Instance))
  | [] => .ok acc
  | o :: rest =>
    match convertToInstanceModel now o diskMap with
    | .crash m => .crash m
    | .fail _ => buildInstanceMap now diskMap acc rest
    | .ok inst => buildInstanceMap now diskMap (upsert inst.instanceID inst acc) rest

/-- Embedding of `CozyStackAdapter.refreshCache` (adapter.go 335-375):
a failed list call returns the error with the caches untouched;
otherwise both fresh maps are built and swapped in together. -/
def refreshCache (now : String) (st : AdapterState)
    (vmListRes diskListRes : Except String (List Obj)) :
    GoResult (Option String × AdapterState) :=
  match vmListRes with
  | .error e => .ok (some ("failed to list VMs: " ++ e), st)
  | .ok vms =>
    match diskListRes with
    | .error e => .ok (some ("failed to list disks: " ++ e), st)
    | .ok diskObjs =>
      match buildDiskMap [] diskObjs with
      | .crash m => .crash m
      | .fail m => .fail m
      | .ok diskMap =>
        match buildInstanceMap now diskMap [] vms with
        | .crash m => .crash m
        | .fail m => .fail m
        | .ok instMap => .ok (none, ⟨instMap, diskMap⟩)

/-- The per-disk update loop of `refreshInstanceCache` (adapter.go
396-423): failed gets and failed conversions are skipped, conversion
panics propagate, converted disks are upserted into the disk cache. -/
def updateDisksLoop (diskGet : String → Except String Obj)
    (dc : List (String × Disk)) : List GoVal → GoResult (List (String × Disk))
  | [] => .ok dc
  | d :: rest =>
    match d with
    | .vmap dm =>
      match lookupKey dm "name" with
      | some (.vstr nm) =>
        match diskGet nm with
        | .error _ => updateDisksLoop diskGet dc rest
        | .ok dobj =>
          match convertToDiskModel dobj with
          | .crash m => .crash m
          | .fail _ => updateDisksLoop diskGet dc rest
          | .ok dsk => updateDisksLoop diskGet (upsert nm dsk dc) rest
      | _ => updateDisksLoop diskGet dc rest
    | _ => updateDisksLoop diskGet dc rest

/-- Embedding of `CozyStackAdapter.refreshInstanceCache`
(adapter.go 378-437): fetch one instance document, refresh its disks,
convert and upsert the single entry. -/
def refreshInstanceCache (now : String) (st : AdapterState) (instanceID : String)
    (vmGetRes : Except String Obj) (diskGet : String → Except String Obj) :
    GoResult (Option String × AdapterState) :=
  match vmGetRes with
  | .error e => .ok (some ("failed to get VM: " ++ e), st)
  | .ok obj =>
    match nestedMap obj "spec" with
    | .found spec =>
      match nestedSlice spec "disks" with
      | .typeErr => .ok (some "failed to get disks info", st)
      | ds =>
        let disksData := match ds with
          | .found xs => xs
          | _ => []
        match updateDisksLoop diskGet st.diskCache disksData with
        | .crash m => .crash m
        | .fail m => .fail m
        | .ok dc =>
          match convertToInstanceModel now obj dc with
          | .crash m => .crash m
          | .fail m => .ok (some ("failed to convert VM to model: " ++ m), ⟨st.instanceCache, dc⟩)
          | .ok inst => .ok (none, ⟨upsert instanceID inst st.instanceCache, dc⟩)
    | _ => .ok (some "failed to get VM spec", st)

end Adapter

namespace DiskManager

/-- Embedding of `DiskManager.CreateDisk` (disk_manager.go 72-142).
`getErr = none` means the existence-check `Get` succeeded, i.e. the disk
already exists; the bounded retry around the create is summarized by the
final outcome `createErr`. -/
def CreateDisk (st : DMState) (diskID : String) (sizeGB : Int) (_imageID : String)
    (getErr : Option String) (createErr : Option String) :
    GoResult Disk × List ClusterAction × DMState :=
  match getErr with
  | none =>
    (.fail ("disk with ID " ++ diskID ++ " already exists"), [.getDisk diskID], st)
  | some _ =>
    match createErr with
    | some e =>
      (.fail ("failed to create disk: " ++ e), [.getDisk diskID, .createDisk diskID], st)
    | none =>
      let disk : Disk := ⟨diskID, sizeGB, true, "CREATING"⟩
      (.ok disk, [.getDisk diskID, .createDisk diskID],
       ⟨upsert diskID disk st.diskCache⟩)

/-- Embedding of `DiskManager.DeleteDisk` (disk_manager.go 145-168): a
not-found response from the cluster delete is normalized to success;
either way the disk is dropped from the cache on success. -/
def DeleteDisk (st : DMState) (diskID : String) (delErr : Option String) :
    GoResult Bool × List ClusterAction × DMState :=
  match delErr with
  | some e =>
    if goContains e "not found" then
      (.ok true, [.deleteDisk diskID], ⟨removeKey diskID st.diskCache⟩)
    else
      (.fail e, [.deleteDisk diskID], st)
  | none => (.ok true, [.deleteDisk diskID], ⟨removeKey diskID st.diskCache⟩)

/-- Embedding of `DiskManager.GetDisk` (disk_manager.go 171-199): cache
hit short-circuits; a miss fetches, converts and caches the disk. -/
def GetDisk (st : DMState) (diskID : String) (apiRes : Except String Obj) :
    GoResult Disk × List ClusterAction × DMState :=
  match st.diskCache.lookup diskID with
  | some d => (.ok d, [], st)
  | none =>
    match apiRes with
    | .error e => (.fail ("failed to get disk: " ++ e), [.getDisk diskID], st)
    | .ok obj =>
      match convertToDiskModel obj with
      | .crash m => (.crash m, [.getDisk diskID], st)
      | .fail m => (.fail m, [.getDisk diskID], st)
      | .ok d => (.ok d, [.getDisk diskID], ⟨upsert diskID d st.diskCache⟩)

/-- Embedding of `DiskManager.ResizeDisk` (disk_manager.go 222-278).
The validation compares `int32(newSizeGB)` against the current size; on
success the cluster resource's `spec.storage` is updated to
`"<newSizeGB>Gi"`, the cached entry's size is set, and the cached disk
is returned.  `initialGetErr` is the pre-retry `Get` outcome,
`closureGetRes` the `Get` inside the retry closure, `updateErr` the
`Update` outcome. -/
def ResizeDisk (st : DMState) (diskID : String) (newSizeGB : Int)
    (apiRes : Except String Obj) (initialGetErr : Option String)
    (closureGetRes : Except String Obj) (updateErr : Option String) :
    GoResult Disk × List ClusterAction × DMState :=
  match GetDisk st diskID apiRes with
  | (.crash m, acts, st1) => (.crash m, acts, st1)
  | (.fail m, acts, st1) => (.fail m, acts, st1)
  | (.ok currentDisk, acts, st1) =>
    if toInt32 newSizeGB ≤ currentDisk.sizeGb then
      (.fail ("new size (" ++ toString newSizeGB ++ " GB) must be greater than current size ("
          ++ toString currentDisk.sizeGb ++ " GB)"), acts, st1)
    else
      match initialGetErr with
      | some e =>
        (.fail ("failed to get disk for resizing: " ++ e), acts ++ [.getDisk diskID], st1)
      | none =>
        match closureGetRes with
        | .error e =>
          (.fail ("failed to resize disk: " ++ e),
           acts ++ [.getDisk diskID, .getDisk diskID], st1)
        | .ok obj =>
          match nestedMap obj "spec" with
          | .found _ =>
            match updateErr with
            | some e =>
              (.fail ("failed to resize disk: " ++ e),
               acts ++ [.getDisk diskID, .getDisk diskID,
                        .updateDisk diskID (toString newSizeGB ++ "Gi")], st1)
            | none =>
              let st2 : DMState :=
                ⟨match st1.diskCache.lookup diskID with
                  | some d => upsert diskID { d with sizeGb := newSizeGB } st1.diskCache
                  | none => st1.diskCache⟩
              match GetDisk st2 diskID apiRes with
              | (r, acts2, st3) =>
                (r, acts ++ [.getDisk diskID, .getDisk diskID,
                             .updateDisk diskID (toString newSizeGB ++ "Gi")] ++ acts2, st3)
          | _ =>
            (.fail ("failed to resize disk: " ++ "spec not found in disk object"),
             acts ++ [.getDisk diskID, .getDisk diskID], st1)

/-- Disk collection loop of `refreshDiskCache` (disk_manager.go
350-360): items whose conversion errors are skipped. -/
def buildDiskMap (acc : List (String × Disk)) : List Obj → GoResult (List (String × Disk))
  | [] => .ok acc
  | o :: rest =>
    match convertToDiskModel o with
    | .crash m => .crash m
    | .fail _ => buildDiskMap acc rest
    | .ok d => buildDiskMap (upsert d.diskID d acc) rest

/-- Embedding of `DiskManager.refreshDiskCache` (disk_manager.go
340-368): a failed list call returns the error with the cache untouched;
otherwise the fresh map replaces the cache. -/
def refreshDiskCache (st : DMState) (diskListRes : Except String (List Obj)) :
    GoResult (Option String × DMState) :=
  match diskListRes with
  | .error e => .ok (some ("failed to list disks: " ++ e), st)
  | .ok objs =>
    match buildDiskMap [] objs with
    | .crash m => .crash m
    | .fail m => .fail m
    | .ok newCache => .ok (none, ⟨newCache⟩)

end DiskManager

namespace InstanceManager

/-- Embedding of `InstanceManager.GetInstanceItem` (disk_manager.go
787-813): cache hit short-circuits; otherwise `refreshInstanceItem` is
run, summarized by the oracle `fetch` (the converted instance it would
upsert, or its error). -/
def GetInstanceItem (st : IMState) (instanceID : String)
    (fetch : Except String Instance) : GoResult Instance × IMState :=
  match st.instanceCache.lookup instanceID with
  | some inst => (.ok inst, st)
  | none =>
    match fetch with
    | .error e => (.fail ("failed to refresh instance info: " ++ e), st)
    | .ok inst =>
      (.ok inst, { st with instanceCache := upsert instanceID inst st.instanceCache })

/-- Embedding of `InstanceManager.CreateInstance` (disk_manager.go
551-704).  Both resource names are derived from the input id; a
successful existence pre-check (`vmGetErr = none`) aborts with an
already-exists error before any create; instance-create failure triggers
the compensating `DeleteDisk`, whose outcome is discarded. -/
def CreateInstance (now : String) (st : IMState) (input : NewInstanceInput)
    (vmGetErr diskGetErr diskCreateErr instCreateErr diskDeleteErr : Option String)
    (getDiskApiRes : Except String Obj) :
    GoResult Instance × List ClusterAction × IMState :=
  let diskID := "vmd-" ++ input.id
  let instanceID := "vmi-" ++ input.id
  match vmGetErr with
  | none =>
    (.fail ("instance with ID " ++ instanceID ++ " already exists"), [.getVM instanceID], st)
  | some _ =>
    match DiskManager.CreateDisk st.dm diskID 20 input.imageID diskGetErr diskCreateErr with
    | (.crash m, acts, dm1) => (.crash m, .getVM instanceID :: acts, { st with dm := dm1 })
    | (.fail m, acts, dm1) =>
      (.fail ("failed to create disk: " ++ m), .getVM instanceID :: acts, { st with dm := dm1 })
    | (.ok _, acts, dm1) =>
      match instCreateErr with
      | some e =>
        match DiskManager.DeleteDisk dm1 diskID diskDeleteErr with
        | (_, dacts, dm2) =>
          (.fail ("failed to create VM: " ++ e),
           .getVM instanceID :: acts ++ [.createVM instanceID] ++ dacts,
           { st with dm := dm2 })
      | none =>
        match parseFlavorType input.instanceType with
        | .crash m =>
          (.crash m, .getVM instanceID :: acts ++ [.createVM instanceID], { st with dm := dm1 })
        | .fail m =>
          (.fail m, .getVM instanceID :: acts ++ [.createVM instanceID], { st with dm := dm1 })
        | .ok catInfo =>
          match DiskManager.GetDisk dm1 diskID getDiskApiRes with
          | (.crash m, gacts, dm2) =>
            (.crash m, .getVM instanceID :: acts ++ [.createVM instanceID] ++ gacts,
             { st with dm := dm2 })
          | (dres, gacts, dm2) =>
            let disk : Disk :=
              match dres with
              | .ok d => d
              | _ => ⟨diskID, 20, true, "CREATING"⟩
            let inst : Instance :=
              { instanceID := instanceID
                projectID := input.id
                name := input.hostname
                status := "PROVISIONING"
                created := now
                updated := now
                keyName := ""
                locked := false
                loading := true
                powerState := "STARTING"
                ipv4 := ""
                flavor := mkFlavor catInfo.1 input.instanceType catInfo.2
                attachedDisks := [disk]
                attachedNetworks := [defaultNetwork input.region ""] }
            (.ok inst, .getVM instanceID :: acts ++ [.createVM instanceID] ++ gacts,
             { instanceCache := upsert instanceID inst st.instanceCache, dm := dm2 })

/-- The tail of `InstanceManager.DeleteInstance` after the cluster
delete has been accepted (disk_manager.go 739-761): best-effort disk
deletes, cache removal, notification. -/
def deleteFinish (st : IMState) (instanceID : String) (diskIDs : List String)
    (diskDeleteErrs : String → Option String) :
    GoResult Bool × List ClusterAction × IMState :=
  let dmFinal := diskIDs.foldl
    (fun dm d =>
      match DiskManager.DeleteDisk dm d (diskDeleteErrs d) with
      | (_, _, dm2) => dm2)
    st.dm
  (.ok true, .deleteVM instanceID :: diskIDs.map .deleteDisk,
   { instanceCache := removeKey instanceID st.instanceCache, dm := dmFinal })

/-- Embedding of `InstanceManager.DeleteInstance` (disk_manager.go
707-762).  The instance must first be found (cache or refresh); a
not-found response from the cluster delete is then normalized to
success, any other delete failure is returned; per-disk delete failures
are only logged. -/
def DeleteInstance (st : IMState) (instanceID : String)
    (fetch : Except String Instance) (vmDeleteErr : Option String)
    (diskDeleteErrs : String → Option String) :
    GoResult Bool × List ClusterAction × IMState :=
  match GetInstanceItem st instanceID fetch with
  | (.crash m, st1) => (.crash m, [], st1)
  | (.fail m, st1) => (.fail ("failed to find instance: " ++ m), [], st1)
  | (.ok inst, st1) =>
    let diskIDs : List String := inst.attachedDisks.map (fun d => d.diskID)
    match vmDeleteErr with
    | some e =>
      if goContains e "not found" then
        deleteFinish { st1 with instanceCache := removeKey instanceID st1.instanceCache }
          instanceID diskIDs diskDeleteErrs
      else
        (.fail ("failed to delete VM: " ++ e), [.deleteVM instanceID], st1)
    | none => deleteFinish st1 instanceID diskIDs diskDeleteErrs

end InstanceManager

/-! ## Status monitor (adapter.go 440-482, disk_manager.go 919-961) -/

/-- What one monitor poll observes: `refreshErr` is a failed
`refreshInstanceCache`, `gone` a cache miss after the refresh, `cached`
the status/power-state pair of the cached instance. -/
inductive PollObs where
  | refreshErr
  | gone
  | cached (status powerState : String)
  deriving Repr, DecidableEq

/-- Result of a finished monitor: how many polls it performed and the
convergence notifications it managed to place on the channel. -/
structure MonitorRes where
  polls : Nat
  emitted : List (String × String)
  deriving Repr, DecidableEq

/-- Embedding of `monitorInstanceStatus` (both copies; `fuel` is the
number of ticker fires before the overall timeout fires — 10 min / 5 s
in the adapter, 15 min / 5 s in the instance manager).  `obs k` is what
poll `k` observes, `chanFree k` whether the notification channel has
room at that moment (a full channel drops the notification). -/
def monitorInstanceStatus (obs : Nat → PollObs) (chanFree : Nat → Bool) :
    Nat → Nat → MonitorRes
  | 0, _ => ⟨0, []⟩
  | fuel + 1, k =>
    match obs k with
    | .refreshErr => ⟨1, []⟩
    | .gone => ⟨1, []⟩
    | .cached status powerState =>
      if status != "PROVISIONING" && powerState != "STARTING" then
        ⟨1, if chanFree k then [(status, powerState)] else []⟩
      else
        let r := monitorInstanceStatus obs chanFree fuel (k + 1)
        ⟨r.polls + 1, r.emitted⟩

/-- Whether one poll observation converges the monitor
(status other than PROVISIONING and power state other than STARTING). -/
def convergedObs : PollObs → Bool
  | .cached status powerState => status != "PROVISIONING" && powerState != "STARTING"
  | _ => false

/-- Whether one poll observation makes the monitor exit without a
notification (failed refresh or evicted instance). -/
def silentExitObs : PollObs → Bool
  | .refreshErr => true
  | .gone => true
  | _ => false

/-! ## Cache-writing operations of the adapter (for the loading
invariant) -/

/-- The operations of `CozyStackAdapter` that write the instance cache,
with the cluster responses they consumed. -/
inductive AdapterOp where
  | opRefreshCache (now : String) (vmListRes diskListRes : Except String (List Obj))
  | opRefreshOne (now : String) (instanceID : String)
      (vmGetRes : Except String Obj) (diskGet : String → Except String Obj)
  | opCreate (now : String) (input : NewInstanceInput)
      (diskCreateErr instCreateErr diskDeleteErr : Option String)
  | opDelete (instanceID : String) (instDeleteErr : Option String)

/-- State transition of one adapter operation (a crash terminates the
process, so the cache is whatever it was). -/
def Adapter.applyOp (st : AdapterState) : AdapterOp → AdapterState
  | .opRefreshCache now vm dk =>
    match Adapter.refreshCache now st vm dk with
    | .ok (_, st2) => st2
    | _ => st
  | .opRefreshOne now id g dg =>
    match Adapter.refreshInstanceCache now st id g dg with
    | .ok (_, st2) => st2
    | _ => st
  | .opCreate now input d i dd => (Adapter.CreateInstance now st input d i dd).2.2
  | .opDelete id e => (Adapter.DeleteInstance st id e).2.2

/-- The loading invariant of a single instance: `loading` holds iff the
status is PROVISIONING or the power state is STARTING. -/
def loadingInv (inst : Instance) : Prop :=
  inst.loading = (inst.status == "PROVISIONING" || inst.powerState == "STARTING")

/-- The loading invariant over the whole instance cache. -/
def cacheInv (st : AdapterState) : Prop :=
  ∀ p ∈ st.instanceCache, loadingInv p.2

/-! ## Helper lemmas -/

theorem lookup_upsert (k : String) (v : α) (m : List (String × α)) (i : String) :
    (upsert k v m).lookup i = if i = k then some v else m.lookup i := by
  induction m with
  | nil =>
    by_cases h : i = k
    · subst h
      simp [upsert, List.lookup]
    · simp [upsert, List.lookup, beq_eq_false_iff_ne.mpr h, h]
  | cons hd tl ih =>
    obtain ⟨k2, v2⟩ := hd
    by_cases h2 : k2 = k
    · subst h2
      simp only [upsert, if_pos rfl]
      by_cases h : i = k2
      · subst h
        simp [List.lookup]
      · simp [List.lookup, beq_eq_false_iff_ne.mpr h, h]
    · simp only [upsert, if_neg h2]
      by_cases h : i = k2
      · subst h
        simp [List.lookup, h2]
      · simp [List.lookup, beq_eq_false_iff_ne.mpr h, ih]

theorem mem_upsert {k : String} {v : α} {m : List (String × α)} {p : String × α}
    (h : p ∈ upsert k v m) : p = (k, v) ∨ p ∈ m := by
  induction m with
  | nil =>
    simp only [upsert] at h
    exact Or.inl (List.mem_singleton.mp h)
  | cons hd tl ih =>
    obtain ⟨k2, v2⟩ := hd
    by_cases h2 : k2 = k
    · simp only [upsert, if_pos h2] at h
      rcases List.mem_cons.mp h with h | h
      · exact Or.inl h
      · exact Or.inr (List.mem_cons_of_mem _ h)
    · simp only [upsert, if_neg h2] at h
      rcases List.mem_cons.mp h with h | h
      · exact Or.inr (by rw [h]; exact List.mem_cons_self _ _)
      · rcases ih h with h3 | h3
        · exact Or.inl h3
        · exact Or.inr (List.mem_cons_of_mem _ h3)

theorem mem_removeKey {k : String} {m : List (String × α)} {p : String × α}
    (h : p ∈ removeKey k m) : p ∈ m := by
  induction m with
  | nil =>
    simp [removeKey] at h
  | cons hd tl ih =>
    obtain ⟨k2, v2⟩ := hd
    by_cases h2 : k2 = k
    · simp only [removeKey, if_pos h2] at h
      exact List.mem_cons_of_mem _ (ih h)
    · simp only [removeKey, if_neg h2] at h
      rcases List.mem_cons.mp h with h | h
      · exact (by rw [h]; exact List.mem_cons_self _ _)
      · exact List.mem_cons_of_mem _ (ih h)

theorem toInt32_eq_self {n : Int} (h1 : -(2 ^ 31) ≤ n) (h2 : n < 2 ^ 31) :
    toInt32 n = n := by
  unfold toInt32
  omega

/-! ## Claims -/

/-- C1: the flavor classifier is claimed to assign the category by
longest/most-specific prefix, in particular `"pro1.xlarge"` to the Pro
category with table values (8 vCPU, 64Gi, 9000).  The source checks the
generic `"p"` prefix before `"pro"`, so the `"pro"` branch is
unreachable: `parseFlavorType "pro1.xlarge"` yields the Premium
category, misses in the premium table, and falls back to the default
(2 vCPU, 4Gi, 1000) — even though the pro table carries the claimed
values.  The other four examples evaluate as claimed. -/
theorem claim1_flavor_catalog :
    parseFlavorType "pro1.xlarge" = .ok ("premium", defaultFlavorInfo) ∧
    defaultFlavorInfo = ⟨"2", "4Gi", "1000"⟩ ∧
    proFlavors.lookup "pro1.xlarge" = some ⟨"8", "64Gi", "9000"⟩ ∧
    parseFlavorType "uf1.medium" = .ok ("hi-freq", ⟨"2", "8Gi", "1800"⟩) ∧
    parseFlavorType "p1.large" = .ok ("premium", ⟨"4", "16Gi", "3500"⟩) ∧
    parseFlavorType "u1.medium" = .ok ("base", ⟨"2", "4Gi", "900"⟩) ∧
    parseFlavorType "xyz.unknown" = .ok ("base", defaultFlavorInfo) := by
  decide

/-- C2: conversion of a malformed document is claimed never to panic.
The source panics on several malformed documents: a VMInstance document
whose spec lacks `instanceType` (so `parseFlavorType ""` slices out of
range), a document without a string `metadata.name`, and a disk document
with a non-string `status.phase`; `parseFlavorType` also panics on any
instance-type string shorter than two characters. -/
theorem claim2_converter_crashes :
    Adapter.convertToInstanceModel "T"
      [("metadata", .vmap [("name", .vstr "vmi-a"),
                           ("creationTimestamp", .vstr "2024-01-01T00:00:00Z")]),
       ("spec", .vmap [])] []
      = .crash "slice bounds out of range" ∧
    Adapter.convertToInstanceModel "T"
      [("metadata", .vmap [("creationTimestamp", .vstr "2024-01-01T00:00:00Z")]),
       ("spec", .vmap [("instanceType", .vstr "u1.medium")])] []
      = .crash "interface conversion: interface is not string" ∧
    DiskManager.convertToDiskModel
      [("metadata", .vmap [("name", .vstr "vmd-a")]),
       ("spec", .vmap [("storage", .vstr "20Gi")]),
       ("status", .vmap [("phase", .vint 5)])]
      = .crash "interface conversion: interface is not string" ∧
    parseFlavorType "x" = .crash "slice bounds out of range" := by
  decide

/-- C3 (counterexample): when the cluster delete reports not-found,
`CozyStackAdapter.DeleteInstance` does not return success — it wraps the
not-found error and returns it, contradicting the claim that delete is
idempotent for every instance id absent from the cluster. -/
theorem claim3_adapter_delete_notFound_errors :
    (Adapter.DeleteInstance ⟨[], []⟩ "vmi-x"
        (some "vminstances.apps.cozystack.io \"vmi-x\" not found")).1
      = .fail ("failed to delete VM: "
          ++ "vminstances.apps.cozystack.io \"vmi-x\" not found") ∧
    (Adapter.DeleteInstance ⟨[], []⟩ "vmi-x"
        (some "vminstances.apps.cozystack.io \"vmi-x\" not found")).1
      ≠ .ok true := by
  decide

/-- C3 (amended): `InstanceManager.DeleteInstance` normalizes a
not-found response from the cluster delete to success whenever the
instance lookup (`GetInstanceItem` — from the cache, or fetched by the
refresh on a cache miss) found the instance; when the instance cannot be
found at lookup at all (cache miss and failed refresh) it returns an
error instead; and the adapter's `DeleteInstance` propagates every
cluster delete failure, including not-found, as an error. -/
theorem claim3_delete_notFound_normalized :
    (∀ (st : IMState) (instanceID : String) (fetch : Except String Instance)
       (e : String) (dde : String → Option String) (inst : Instance) (st1 : IMState),
       InstanceManager.GetInstanceItem st instanceID fetch = (.ok inst, st1) →
       goContains e "not found" = true →
       (InstanceManager.DeleteInstance st instanceID fetch (some e) dde).1 = .ok true) ∧
    (∀ (st : IMState) (instanceID e0 e : String) (dde : String → Option String),
       st.instanceCache.lookup instanceID = none →
       (InstanceManager.DeleteInstance st instanceID (.error e0) (some e) dde).1
         = .fail ("failed to find instance: "
             ++ ("failed to refresh instance info: " ++ e0))) ∧
    (∀ (st : AdapterState) (instanceID e : String),
       (Adapter.DeleteInstance st instanceID (some e)).1
         = .fail ("failed to delete VM: " ++ e)) := by
  refine ⟨?_, ?_, ?_⟩
  · intro st instanceID fetch e dde inst st1 hget hnf
    simp [InstanceManager.DeleteInstance, hget, hnf, InstanceManager.deleteFinish]
  · intro st instanceID e0 e dde hlk
    simp [InstanceManager.DeleteInstance, InstanceManager.GetInstanceItem, hlk]
  · intro st instanceID e
    simp [Adapter.DeleteInstance]

/-- A concrete cached instance used by the witnesses. -/
def sampleInstance : Instance :=
  { instanceID := "vmi-w"
    projectID := "w"
    name := "host-w"
    status := "ACTIVE"
    created := "2024-01-01T00:00:00Z"
    updated := "2024-01-01T00:00:00Z"
    keyName := ""
    locked := false
    loading := false
    powerState := "ACTIVE"
    ipv4 := ""
    flavor := none
    attachedDisks := [⟨"vmd-w", 20, true, "ACTIVE"⟩]
    attachedNetworks := [] }

/-- Witness for C3's amended theorem: normalization at a concrete
instance found via the refresh path (cache miss, successful fetch) and
at a concrete cache hit, and the error at a concrete failed lookup. -/
theorem claim3_delete_notFound_normalized_witness :
    (InstanceManager.DeleteInstance ⟨[], ⟨[]⟩⟩ "vmi-w"
        (.ok sampleInstance) (some "vminstances.apps.cozystack.io \"vmi-w\" not found")
        (fun _ => none)).1 = .ok true ∧
    (InstanceManager.DeleteInstance ⟨[("vmi-w", sampleInstance)], ⟨[]⟩⟩ "vmi-w"
        (.error "unused") (some "vminstances.apps.cozystack.io \"vmi-w\" not found")
        (fun _ => none)).1 = .ok true ∧
    (InstanceManager.DeleteInstance ⟨[], ⟨[]⟩⟩ "vmi-w"
        (.error "connection refused")
        (some "vminstances.apps.cozystack.io \"vmi-w\" not found")
        (fun _ => none)).1
      = .fail ("failed to find instance: "
          ++ ("failed to refresh instance info: " ++ "connection refused")) := by
  refine ⟨?_, ?_, ?_⟩
  · exact claim3_delete_notFound_normalized.1 ⟨[], ⟨[]⟩⟩ "vmi-w"
      (.ok sampleInstance) "vminstances.apps.cozystack.io \"vmi-w\" not found"
      (fun _ => none) sampleInstance
      ⟨[("vmi-w", sampleInstance)], ⟨[]⟩⟩ (by decide) (by decide)
  · exact claim3_delete_notFound_normalized.1 ⟨[("vmi-w", sampleInstance)], ⟨[]⟩⟩
      "vmi-w" (.error "unused") "vminstances.apps.cozystack.io \"vmi-w\" not found"
      (fun _ => none) sampleInstance
      ⟨[("vmi-w", sampleInstance)], ⟨[]⟩⟩ (by decide) (by decide)
  · exact claim3_delete_notFound_normalized.2.1 ⟨[], ⟨[]⟩⟩ "vmi-w"
      "connection refused" "vminstances.apps.cozystack.io \"vmi-w\" not found"
      (fun _ => none) (by decide)

/-- C4 (counterexample): with the derived instance id already present in
the cluster (the VM create is rejected as already existing) but the disk
id free, `CozyStackAdapter.CreateInstance` issues — and succeeds at — a
disk creation before failing: it performs no existence pre-check, so it
does not fail before creating any resource as claimed. -/
theorem claim4_adapter_creates_disk_before_failing :
    ((Adapter.CreateInstance "T" ⟨[], []⟩ ⟨"x1", "h1", "r1", "u1.medium", "img"⟩
        none (some "vminstances.apps.cozystack.io \"vmi-x1\" already exists") none).2.1
      = [.createDisk "vmd-x1", .createVM "vmi-x1", .deleteDisk "vmd-x1"]) ∧
    ((Adapter.CreateInstance "T" ⟨[], []⟩ ⟨"x1", "h1", "r1", "u1.medium", "img"⟩
        none (some "vminstances.apps.cozystack.io \"vmi-x1\" already exists") none).1
      = .fail ("failed to create VM: "
          ++ "vminstances.apps.cozystack.io \"vmi-x1\" already exists")) := by
  decide

/-- C4 (amended): both create workflows derive the disk id `"vmd-"+X`
and instance id `"vmi-"+X` deterministically.
`InstanceManager.CreateInstance` fails with an already-exists error
before issuing any create when the pre-check `Get` finds the derived
instance id; the adapter performs no pre-check — its second create with
the same `X` fails only when the cluster rejects the disk (or VM)
creation. -/
theorem claim4_derived_ids_and_precheck :
    (∀ now st input dge dce ice dde gar,
       (InstanceManager.CreateInstance now st input none dge dce ice dde gar).1
         = .fail ("instance with ID " ++ ("vmi-" ++ input.id) ++ " already exists") ∧
       (InstanceManager.CreateInstance now st input none dge dce ice dde gar).2.1
         = [.getVM ("vmi-" ++ input.id)]) ∧
    (∀ now st input g dge dce ice dde gar inst,
       (InstanceManager.CreateInstance now st input (some g) dge dce ice dde gar).1
         = .ok inst →
       inst.instanceID = "vmi-" ++ input.id ∧
       ∀ d ∈ inst.attachedDisks, d.diskID = "vmd-" ++ input.id) ∧
    (∀ now st input dce ice dde inst,
       (Adapter.CreateInstance now st input dce ice dde).1 = .ok inst →
       inst.instanceID = "vmi-" ++ input.id ∧
       inst.attachedDisks.map (fun d => d.diskID) = ["vmd-" ++ input.id]) ∧
    (∀ now st input e ice dde,
       (Adapter.CreateInstance now st input (some e) ice dde).1
         = .fail ("failed to create disk: " ++ e)) := by
  refine ⟨?_, ?_, ?_, ?_⟩
  · intro now st input dge dce ice dde gar
    constructor <;> simp [InstanceManager.CreateInstance]
  · intro now st input g dge dce ice dde gar inst h
    unfold InstanceManager.CreateInstance at h
    cases dge with
    | none => simp [DiskManager.CreateDisk] at h
    | some dg =>
      cases dce with
      | some e => simp [DiskManager.CreateDisk] at h
      | none =>
        cases ice with
        | some e =>
          simp only [DiskManager.CreateDisk] at h
          rcases hdd : DiskManager.DeleteDisk
              ⟨upsert ("vmd-" ++ input.id) ⟨"vmd-" ++ input.id, 20, true, "CREATING"⟩
                st.dm.diskCache⟩ ("vmd-" ++ input.id) dde with ⟨r, dacts, dm2⟩
          simp [hdd] at h
        | none =>
          simp only [DiskManager.CreateDisk] at h
          cases hp : parseFlavorType input.instanceType with
          | crash m => simp [hp] at h
          | fail m => simp [hp] at h
          | ok catInfo =>
            simp [hp, DiskManager.GetDisk, lookup_upsert] at h
            subst h
            refine ⟨rfl, ?_⟩
            intro d hd
            simp only [List.mem_singleton] at hd
            subst hd
            rfl
  · intro now st input dce ice dde inst h
    unfold Adapter.CreateInstance at h
    cases dce with
    | some e => simp at h
    | none =>
      cases ice with
      | some e => simp at h
      | none =>
        cases hp : parseFlavorType input.instanceType with
        | crash m => simp [hp] at h
        | fail m => simp [hp] at h
        | ok catInfo =>
          simp only [hp, GoResult.ok.injEq] at h
          subst h
          exact ⟨rfl, rfl⟩
  · intro now st input e ice dde
    simp [Adapter.CreateInstance]

/-- The instance synthesized by the adapter create in the C4 witness
scenario. -/
def adapterInstX1 : Instance :=
  { instanceID := "vmi-x1"
    projectID := "x1"
    name := "h1"
    status := "PROVISIONING"
    created := "T"
    updated := "T"
    keyName := ""
    locked := false
    loading := true
    powerState := "STARTING"
    ipv4 := ""
    flavor := some (.base "u1.medium" "2" "4Gi" "900")
    attachedDisks := [⟨"vmd-x1", 20, true, "CREATING"⟩]
    attachedNetworks := [] }

/-- Witness for C4's amended theorem: a concrete successful adapter
create carries the derived ids. -/
theorem claim4_derived_ids_and_precheck_witness :
    adapterInstX1.instanceID = "vmi-" ++ "x1" ∧
    adapterInstX1.attachedDisks.map (fun d => d.diskID) = ["vmd-" ++ "x1"] := by
  exact claim4_derived_ids_and_precheck.2.2.1 "T" ⟨[], []⟩
    ⟨"x1", "h1", "r1", "u1.medium", "img"⟩ none none none adapterInstX1 (by decide)

/-- C5: in both create workflows, when the instance-creation request
fails after the disk creation succeeded, a compensating delete of the
just-created disk `"vmd-"+X` is issued, the workflow returns the
instance-creation error, and the compensating delete's own outcome
(`dde`, universally quantified) never changes the returned result. -/
theorem claim5_compensating_disk_delete :
    (∀ now st input e dde,
       (Adapter.CreateInstance now st input none (some e) dde).1
         = .fail ("failed to create VM: " ++ e) ∧
       ClusterAction.deleteDisk ("vmd-" ++ input.id)
         ∈ (Adapter.CreateInstance now st input none (some e) dde).2.1) ∧
    (∀ now st input g dg e dde gar,
       (InstanceManager.CreateInstance now st input (some g) (some dg) none (some e)
           dde gar).1
         = .fail ("failed to create VM: " ++ e) ∧
       ClusterAction.deleteDisk ("vmd-" ++ input.id)
         ∈ (InstanceManager.CreateInstance now st input (some g) (some dg) none (some e)
             dde gar).2.1) := by
  constructor
  · intro now st input e dde
    constructor
    · simp [Adapter.CreateInstance]
    · simp [Adapter.CreateInstance]
  · intro now st input g dg e dde gar
    cases dde with
    | none =>
      constructor <;>
        simp [InstanceManager.CreateInstance, DiskManager.CreateDisk,
              DiskManager.DeleteDisk]
    | some e2 =>
      by_cases hnf : goContains e2 "not found" = true
      · constructor <;>
          simp [InstanceManager.CreateInstance, DiskManager.CreateDisk,
                DiskManager.DeleteDisk, hnf]
      · constructor <;>
          simp [InstanceManager.CreateInstance, DiskManager.CreateDisk,
                DiskManager.DeleteDisk, hnf]

theorem lookup_buildInstanceMap (now : String) (dm : List (String × Disk)) :
    ∀ (objs : List Obj) (acc m : List (String × Instance)),
      Adapter.buildInstanceMap now dm acc objs = .ok m →
      ∀ i, (m.lookup i).isSome = true ↔
        ((acc.lookup i).isSome = true ∨
         ∃ o ∈ objs, ∃ inst, Adapter.convertToInstanceModel now o dm = .ok inst ∧
           inst.instanceID = i) := by
  intro objs
  induction objs with
  | nil =>
    intro acc m h i
    simp only [Adapter.buildInstanceMap, GoResult.ok.injEq] at h
    subst h
    simp
  | cons o rest ih =>
    intro acc m h i
    cases hc : Adapter.convertToInstanceModel now o dm with
    | crash m2 => simp [Adapter.buildInstanceMap, hc] at h
    | fail m2 =>
      simp only [Adapter.buildInstanceMap, hc] at h
      rw [ih acc m h i]
      constructor
      · rintro (hacc | ⟨o2, ho2, inst2, hconv, hid⟩)
        · exact Or.inl hacc
        · exact Or.inr ⟨o2, List.mem_cons_of_mem _ ho2, inst2, hconv, hid⟩
      · rintro (hacc | ⟨o2, ho2, inst2, hconv, hid⟩)
        · exact Or.inl hacc
        · rcases List.mem_cons.mp ho2 with rfl | ho2
          · rw [hc] at hconv
            exact absurd hconv (by simp)
          · exact Or.inr ⟨o2, ho2, inst2, hconv, hid⟩
    | ok inst =>
      simp only [Adapter.buildInstanceMap, hc] at h
      rw [ih _ m h i]
      constructor
      · rintro (hup | ⟨o2, ho2, inst2, hconv, hid⟩)
        · rw [lookup_upsert] at hup
          by_cases hi : i = inst.instanceID
          · exact Or.inr ⟨o, List.mem_cons_self _ _, inst, hc, hi.symm⟩
          · rw [if_neg hi] at hup
            exact Or.inl hup
        · exact Or.inr ⟨o2, List.mem_cons_of_mem _ ho2, inst2, hconv, hid⟩
      · rintro (hacc | ⟨o2, ho2, inst2, hconv, hid⟩)
        · left
          rw [lookup_upsert]
          by_cases hi : i = inst.instanceID
          · simp [hi]
          · rw [if_neg hi]
            exact hacc
        · rcases List.mem_cons.mp ho2 with rfl | ho2
          · left
            rw [hc] at hconv
            have he : inst = inst2 := by
              injection hconv
            rw [lookup_upsert, if_pos (by rw [he]; exact hid.symm)]
            rfl
          · exact Or.inr ⟨o2, ho2, inst2, hconv, hid⟩

theorem lookup_buildDiskMapDM :
    ∀ (objs : List Obj) (acc m : List (String × Disk)),
      DiskManager.buildDiskMap acc objs = .ok m →
      ∀ i, (m.lookup i).isSome = true ↔
        ((acc.lookup i).isSome = true ∨
         ∃ o ∈ objs, ∃ d, DiskManager.convertToDiskModel o = .ok d ∧
           d.diskID = i) := by
  intro objs
  induction objs with
  | nil =>
    intro acc m h i
    simp only [DiskManager.buildDiskMap, GoResult.ok.injEq] at h
    subst h
    simp
  | cons o rest ih =>
    intro acc m h i
    cases hc : DiskManager.convertToDiskModel o with
    | crash m2 => simp [DiskManager.buildDiskMap, hc] at h
    | fail m2 =>
      simp only [DiskManager.buildDiskMap, hc] at h
      rw [ih acc m h i]
      constructor
      · rintro (hacc | ⟨o2, ho2, d2, hconv, hid⟩)
        · exact Or.inl hacc
        · exact Or.inr ⟨o2, List.mem_cons_of_mem _ ho2, d2, hconv, hid⟩
      · rintro (hacc | ⟨o2, ho2, d2, hconv, hid⟩)
        · exact Or.inl hacc
        · rcases List.mem_cons.mp ho2 with rfl | ho2
          · rw [hc] at hconv
            exact absurd hconv (by simp)
          · exact Or.inr ⟨o2, ho2, d2, hconv, hid⟩
    | ok d =>
      simp only [DiskManager.buildDiskMap, hc] at h
      rw [ih _ m h i]
      constructor
      · rintro (hup | ⟨o2, ho2, d2, hconv, hid⟩)
        · rw [lookup_upsert] at hup
          by_cases hi : i = d.diskID
          · exact Or.inr ⟨o, List.mem_cons_self _ _, d, hc, hi.symm⟩
          · rw [if_neg hi] at hup
            exact Or.inl hup
        · exact Or.inr ⟨o2, List.mem_cons_of_mem _ ho2, d2, hconv, hid⟩
      · rintro (hacc | ⟨o2, ho2, d2, hconv, hid⟩)
        · left
          rw [lookup_upsert]
          by_cases hi : i = d.diskID
          · simp [hi]
          · rw [if_neg hi]
            exact hacc
        · rcases List.mem_cons.mp ho2 with rfl | ho2
          · left
            rw [hc] at hconv
            have he : d = d2 := by
              injection hconv
            rw [lookup_upsert, if_pos (by rw [he]; exact hid.symm)]
            rfl
          · exact Or.inr ⟨o2, ho2, d2, hconv, hid⟩

/-- C6: both full cache refreshes return an error exactly when an
underlying list call fails, and in that case the previous caches are
returned unchanged; when the lists succeed, an item whose conversion
returns an error is merely absent from the fresh mappings — an id is
present in the new instance (resp. disk) cache exactly when some listed
document converts successfully to it. -/
theorem claim6_refresh_error_iff_list_failure :
    (∀ now st vmRes dkRes e st2,
       Adapter.refreshCache now st vmRes dkRes = .ok (some e, st2) →
       st2 = st ∧ ((∃ e0, vmRes = .error e0) ∨ (∃ e0, dkRes = .error e0))) ∧
    (∀ now st e dkRes,
       Adapter.refreshCache now st (.error e) dkRes
         = .ok (some ("failed to list VMs: " ++ e), st)) ∧
    (∀ now st vms e,
       Adapter.refreshCache now st (.ok vms) (.error e)
         = .ok (some ("failed to list disks: " ++ e), st)) ∧
    (∀ now st vms dks st2,
       Adapter.refreshCache now st (.ok vms) (.ok dks) = .ok (none, st2) →
       ∃ dm, Adapter.buildDiskMap [] dks = .ok dm ∧ st2.diskCache = dm ∧
         ∀ i, (st2.instanceCache.lookup i).isSome = true ↔
           ∃ o ∈ vms, ∃ inst, Adapter.convertToInstanceModel now o dm = .ok inst ∧
             inst.instanceID = i) ∧
    (∀ st r e st2,
       DiskManager.refreshDiskCache st r = .ok (some e, st2) →
       st2 = st ∧ ∃ e0, r = .error e0) ∧
    (∀ st e,
       DiskManager.refreshDiskCache st (.error e)
         = .ok (some ("failed to list disks: " ++ e), st)) ∧
    (∀ st dks st2,
       DiskManager.refreshDiskCache st (.ok dks) = .ok (none, st2) →
       ∀ i, (st2.diskCache.lookup i).isSome = true ↔
         ∃ o ∈ dks, ∃ d, DiskManager.convertToDiskModel o = .ok d ∧
           d.diskID = i) := by
  refine ⟨?_, ?_, ?_, ?_, ?_, ?_, ?_⟩
  · intro now st vmRes dkRes e st2 h
    cases vmRes with
    | error e0 =>
      simp only [Adapter.refreshCache, GoResult.ok.injEq, Prod.mk.injEq,
                 Option.some.injEq] at h
      exact ⟨h.2.symm, Or.inl ⟨e0, rfl⟩⟩
    | ok vms =>
      cases dkRes with
      | error e0 =>
        simp only [Adapter.refreshCache, GoResult.ok.injEq, Prod.mk.injEq,
                   Option.some.injEq] at h
        exact ⟨h.2.symm, Or.inr ⟨e0, rfl⟩⟩
      | ok dks =>
        unfold Adapter.refreshCache at h
        cases hd : Adapter.buildDiskMap [] dks with
        | crash m2 => simp [hd] at h
        | fail m2 => simp [hd] at h
        | ok dmv =>
          cases hi : Adapter.buildInstanceMap now dmv [] vms with
          | crash m2 => simp [hd, hi] at h
          | fail m2 => simp [hd, hi] at h
          | ok imv => simp [hd, hi] at h
  · intro now st e dkRes
    simp [Adapter.refreshCache]
  · intro now st vms e
    simp [Adapter.refreshCache]
  · intro now st vms dks st2 h
    unfold Adapter.refreshCache at h
    cases hd : Adapter.buildDiskMap [] dks with
    | crash m2 => simp [hd] at h
    | fail m2 => simp [hd] at h
    | ok dmv =>
      cases hi : Adapter.buildInstanceMap now dmv [] vms with
      | crash m2 => simp [hd, hi] at h
      | fail m2 => simp [hd, hi] at h
      | ok imv =>
        simp only [hd, hi, GoResult.ok.injEq, Prod.mk.injEq] at h
        refine ⟨dmv, rfl, ?_, ?_⟩
        · rw [← h.2]
        · intro i
          rw [← h.2]
          have := lookup_buildInstanceMap now dmv vms [] imv hi i
          simpa [List.lookup] using this
  · intro st r e st2 h
    cases r with
    | error e0 =>
      simp only [DiskManager.refreshDiskCache, GoResult.ok.injEq, Prod.mk.injEq,
                 Option.some.injEq] at h
      exact ⟨h.2.symm, ⟨e0, rfl⟩⟩
    | ok dks =>
      unfold DiskManager.refreshDiskCache at h
      cases hd : DiskManager.buildDiskMap [] dks with
      | crash m2 => simp [hd] at h
      | fail m2 => simp [hd] at h
      | ok dmv => simp [hd] at h
  · intro st e
    simp [DiskManager.refreshDiskCache]
  · intro st dks st2 h
    unfold DiskManager.refreshDiskCache at h
    cases hd : DiskManager.buildDiskMap [] dks with
    | crash m2 => simp [hd] at h
    | fail m2 => simp [hd] at h
    | ok dmv =>
      simp only [hd, GoResult.ok.injEq, Prod.mk.injEq] at h
      intro i
      rw [← h.2]
      have := lookup_buildDiskMapDM dks [] dmv hd i
      simpa [List.lookup] using this

/-- Witness for C6 at a concrete failed VM list call: the refresh
reports the wrapped list error and leaves the caches exactly as they
were. -/
theorem claim6_refresh_error_iff_list_failure_witness :
    (⟨[("vmi-w", sampleInstance)], []⟩ : AdapterState)
      = ⟨[("vmi-w", sampleInstance)], []⟩ ∧
    ((∃ e0, (Except.error "connection refused" : Except String (List Obj))
        = .error e0) ∨
     (∃ e0, (Except.ok [] : Except String (List Obj)) = .error e0)) := by
  exact claim6_refresh_error_iff_list_failure.1 "T"
    ⟨[("vmi-w", sampleInstance)], []⟩ (.error "connection refused") (.ok [])
    ("failed to list VMs: " ++ "connection refused")
    ⟨[("vmi-w", sampleInstance)], []⟩ (by decide)

theorem convert_loadingInv (now : String) (obj : Obj) (dc : List (String × Disk))
    (inst : Instance) (h : Adapter.convertToInstanceModel now obj dc = .ok inst) :
    loadingInv inst := by
  unfold Adapter.convertToInstanceModel at h
  cases hc : Adapter.convertCore obj dc with
  | crash m => rw [hc] at h; simp [GoResult.map] at h
  | fail m => rw [hc] at h; simp [GoResult.map] at h
  | ok p =>
    rw [hc] at h
    simp only [GoResult.map, GoResult.ok.injEq] at h
    subst h
    simp [Adapter.buildInstance, loadingInv]

theorem buildInstanceMap_inv (now : String) (dm : List (String × Disk)) :
    ∀ (objs : List Obj) (acc m : List (String × Instance)),
      Adapter.buildInstanceMap now dm acc objs = .ok m →
      (∀ p ∈ acc, loadingInv p.2) → ∀ p ∈ m, loadingInv p.2 := by
  intro objs
  induction objs with
  | nil =>
    intro acc m h hacc
    simp only [Adapter.buildInstanceMap, GoResult.ok.injEq] at h
    subst h
    exact hacc
  | cons o rest ih =>
    intro acc m h hacc
    cases hc : Adapter.convertToInstanceModel now o dm with
    | crash m2 => simp [Adapter.buildInstanceMap, hc] at h
    | fail m2 =>
      simp only [Adapter.buildInstanceMap, hc] at h
      exact ih acc m h hacc
    | ok inst =>
      simp only [Adapter.buildInstanceMap, hc] at h
      refine ih _ m h ?_
      intro p hp
      rcases mem_upsert hp with rfl | hp
      · exact convert_loadingInv now o dm inst hc
      · exact hacc p hp

theorem refreshCache_state (now : String) (st : AdapterState)
    (vmRes dkRes : Except String (List Obj)) (oe : Option String) (st2 : AdapterState)
    (h : Adapter.refreshCache now st vmRes dkRes = .ok (oe, st2)) :
    st2 = st ∨ ∃ vms dmv imv, vmRes = .ok vms ∧
      Adapter.buildInstanceMap now dmv [] vms = .ok imv ∧
      st2 = ⟨imv, dmv⟩ := by
  cases vmRes with
  | error e0 =>
    simp only [Adapter.refreshCache, GoResult.ok.injEq, Prod.mk.injEq] at h
    exact Or.inl h.2.symm
  | ok vms =>
    cases dkRes with
    | error e0 =>
      simp only [Adapter.refreshCache, GoResult.ok.injEq, Prod.mk.injEq] at h
      exact Or.inl h.2.symm
    | ok dks =>
      unfold Adapter.refreshCache at h
      cases hd : Adapter.buildDiskMap [] dks with
      | crash m2 => simp [hd] at h
      | fail m2 => simp [hd] at h
      | ok dmv =>
        cases hi : Adapter.buildInstanceMap now dmv [] vms with
        | crash m2 => simp [hd, hi] at h
        | fail m2 => simp [hd, hi] at h
        | ok imv =>
          simp only [hd, hi, GoResult.ok.injEq, Prod.mk.injEq] at h
          exact Or.inr ⟨vms, dmv, imv, rfl, hi, h.2.symm⟩

theorem refreshInstanceCache_state (now : String) (st : AdapterState)
    (instanceID : String) (vmGetRes : Except String Obj)
    (diskGet : String → Except String Obj) (oe : Option String) (st2 : AdapterState)
    (h : Adapter.refreshInstanceCache now st instanceID vmGetRes diskGet
        = .ok (oe, st2)) :
    st2.instanceCache = st.instanceCache ∨
    ∃ obj dc inst, Adapter.convertToInstanceModel now obj dc = .ok inst ∧
      st2.instanceCache = upsert instanceID inst st.instanceCache := by
  cases vmGetRes with
  | error e0 =>
    simp only [Adapter.refreshInstanceCache, GoResult.ok.injEq, Prod.mk.injEq] at h
    exact Or.inl (by rw [← h.2])
  | ok obj =>
    unfold Adapter.refreshInstanceCache at h
    cases hs : nestedMap obj "spec" with
    | missing => simp [hs] at h; exact Or.inl (by rw [← h.2])
    | typeErr => simp [hs] at h; exact Or.inl (by rw [← h.2])
    | found spec =>
      simp only [hs] at h
      cases hds : nestedSlice spec "disks" with
      | typeErr =>
        simp only [hds, GoResult.ok.injEq, Prod.mk.injEq] at h
        exact Or.inl (by rw [← h.2])
      | missing =>
        simp only [hds] at h
        cases hul : Adapter.updateDisksLoop diskGet st.diskCache [] with
        | crash m2 => simp [hul] at h
        | fail m2 => simp [hul] at h
        | ok dc =>
          simp only [hul] at h
          cases hcv : Adapter.convertToInstanceModel now obj dc with
          | crash m2 => simp [hcv] at h
          | fail m2 =>
            simp only [hcv, GoResult.ok.injEq, Prod.mk.injEq] at h
            exact Or.inl (by rw [← h.2])
          | ok inst =>
            simp only [hcv, GoResult.ok.injEq, Prod.mk.injEq] at h
            exact Or.inr ⟨obj, dc, inst, hcv, by rw [← h.2]⟩
      | found xs =>
        simp only [hds] at h
        cases hul : Adapter.updateDisksLoop diskGet st.diskCache xs with
        | crash m2 => simp [hul] at h
        | fail m2 => simp [hul] at h
        | ok dc =>
          simp only [hul] at h
          cases hcv : Adapter.convertToInstanceModel now obj dc with
          | crash m2 => simp [hcv] at h
          | fail m2 =>
            simp only [hcv, GoResult.ok.injEq, Prod.mk.injEq] at h
            exact Or.inl (by rw [← h.2])
          | ok inst =>
            simp only [hcv, GoResult.ok.injEq, Prod.mk.injEq] at h
            exact Or.inr ⟨obj, dc, inst, hcv, by rw [← h.2]⟩

/-- C8: every instance written into the adapter's cache satisfies the
loading invariant — the converter's output satisfies it, both create
workflows synthesize instances satisfying it (as does the instance
manager's converter record constructor), and every cache-writing
adapter operation preserves it over the whole cache. -/
theorem claim8_loading_invariant :
    (∀ now obj dc inst,
       Adapter.convertToInstanceModel now obj dc = .ok inst → loadingInv inst) ∧
    (∀ now st input dce ice dde inst,
       (Adapter.CreateInstance now st input dce ice dde).1 = .ok inst →
       loadingInv inst) ∧
    (∀ now st input vge dge dce ice dde gar inst,
       (InstanceManager.CreateInstance now st input vge dge dce ice dde gar).1
         = .ok inst → loadingInv inst) ∧
    (∀ now p, loadingInv (InstanceManager.buildInstance now p)) ∧
    (∀ st op, cacheInv st → cacheInv (Adapter.applyOp st op)) := by
  refine ⟨convert_loadingInv, ?_, ?_, ?_, ?_⟩
  · intro now st input dce ice dde inst h
    unfold Adapter.CreateInstance at h
    cases dce with
    | some e => simp at h
    | none =>
      cases ice with
      | some e => simp at h
      | none =>
        cases hp : parseFlavorType input.instanceType with
        | crash m => simp [hp] at h
        | fail m => simp [hp] at h
        | ok catInfo =>
          simp only [hp, GoResult.ok.injEq] at h
          subst h
          simp [loadingInv]
  · intro now st input vge dge dce ice dde gar inst h
    unfold InstanceManager.CreateInstance at h
    cases vge with
    | none => simp at h
    | some g =>
      cases dge with
      | none => simp [DiskManager.CreateDisk] at h
      | some dg =>
        cases dce with
        | some e => simp [DiskManager.CreateDisk] at h
        | none =>
          cases ice with
          | some e =>
            simp only [DiskManager.CreateDisk] at h
            rcases hdd : DiskManager.DeleteDisk
                ⟨upsert ("vmd-" ++ input.id) ⟨"vmd-" ++ input.id, 20, true, "CREATING"⟩
                  st.dm.diskCache⟩ ("vmd-" ++ input.id) dde with ⟨r, dacts, dm2⟩
            simp [hdd] at h
          | none =>
            simp only [DiskManager.CreateDisk] at h
            cases hp : parseFlavorType input.instanceType with
            | crash m => simp [hp] at h
            | fail m => simp [hp] at h
            | ok catInfo =>
              simp [hp, DiskManager.GetDisk, lookup_upsert] at h
              subst h
              simp [loadingInv]
  · intro now p
    simp [InstanceManager.buildInstance, loadingInv]
  · intro st op hinv
    cases op with
    | opRefreshCache now vm dk =>
      simp only [Adapter.applyOp]
      cases hr : Adapter.refreshCache now st vm dk with
      | crash m => exact hinv
      | fail m => exact hinv
      | ok p =>
        obtain ⟨oe, st2⟩ := p
        rcases refreshCache_state now st vm dk oe st2 hr with rfl | ⟨vms, dmv, imv, _, hbi, rfl⟩
        · exact hinv
        · intro q hq
          exact buildInstanceMap_inv now dmv vms [] imv hbi (by simp) q hq
    | opRefreshOne now id g dg =>
      simp only [Adapter.applyOp]
      cases hr : Adapter.refreshInstanceCache now st id g dg with
      | crash m => exact hinv
      | fail m => exact hinv
      | ok p =>
        obtain ⟨oe, st2⟩ := p
        rcases refreshInstanceCache_state now st id g dg oe st2 hr with heq | ⟨obj, dc, inst, hcv, heq⟩
        · intro q hq
          rw [heq] at hq
          exact hinv q hq
        · intro q hq
          rw [heq] at hq
          rcases mem_upsert hq with rfl | hq
          · exact convert_loadingInv now obj dc inst hcv
          · exact hinv q hq
    | opCreate now input d i dd =>
      simp only [Adapter.applyOp, Adapter.CreateInstance]
      cases d with
      | some e => exact hinv
      | none =>
        cases i with
        | some e => exact hinv
        | none =>
          cases hp : parseFlavorType input.instanceType with
          | crash m => simp only [hp]; exact hinv
          | fail m => simp only [hp]; exact hinv
          | ok catInfo =>
            simp only [hp]
            intro q hq
            rcases mem_upsert hq with rfl | hq
            · simp [loadingInv]
            · exact hinv q hq
    | opDelete id e =>
      simp only [Adapter.applyOp, Adapter.DeleteInstance]
      cases e with
      | some e0 => exact hinv
      | none =>
        intro q hq
        exact hinv q (mem_removeKey hq)

/-- The instance produced by the adapter converter in the C8 witness
scenario (phase Running, hence ACTIVE/ACTIVE and not loading). -/
def convInstW : Instance :=
  { instanceID := "vmi-w2"
    projectID := ""
    name := "vmi-w2"
    status := "ACTIVE"
    created := "T0"
    updated := "T"
    keyName := ""
    locked := false
    loading := false
    powerState := "ACTIVE"
    ipv4 := ""
    flavor := some (.base "u1.medium" "2" "4Gi" "900")
    attachedDisks := []
    attachedNetworks := [] }

/-- Witness for C8 at a concrete converted document. -/
theorem claim8_loading_invariant_witness :
    convInstW.loading
      = (convInstW.status == "PROVISIONING" || convInstW.powerState == "STARTING") := by
  exact claim8_loading_invariant.1 "T"
    [("metadata", .vmap [("name", .vstr "vmi-w2"),
                         ("creationTimestamp", .vstr "T0")]),
     ("spec", .vmap [("instanceType", .vstr "u1.medium")]),
     ("status", .vmap [("phase", .vstr "Running")])]
    [] convInstW (by decide)

/-- C7: the status monitor (i) emits only if some poll within the
deadline observed convergence — on timeout without convergence it exits
with no notification; (ii) never emits more than one notification;
(iii) performs at most `fuel` polls; and (iv) at the first converging
poll `j` it terminates having polled exactly `j + 1` times, emitting at
most one notification. -/
theorem claim7_monitor_bounded :
    (∀ (obs : Nat → PollObs) (cf : Nat → Bool) (fuel k : Nat),
       (monitorInstanceStatus obs cf fuel k).emitted ≠ [] →
       ∃ j, j < fuel ∧ convergedObs (obs (k + j)) = true) ∧
    (∀ (obs : Nat → PollObs) (cf : Nat → Bool) (fuel k : Nat),
       (monitorInstanceStatus obs cf fuel k).emitted.length ≤ 1) ∧
    (∀ (obs : Nat → PollObs) (cf : Nat → Bool) (fuel k : Nat),
       (monitorInstanceStatus obs cf fuel k).polls ≤ fuel) ∧
    (∀ (obs : Nat → PollObs) (cf : Nat → Bool) (fuel k j : Nat),
       j < fuel →
       (∀ i, i < j → convergedObs (obs (k + i)) = false ∧
                     silentExitObs (obs (k + i)) = false) →
       convergedObs (obs (k + j)) = true →
       (monitorInstanceStatus obs cf fuel k).polls = j + 1 ∧
       (monitorInstanceStatus obs cf fuel k).emitted.length ≤ 1) := by
  have hlen : ∀ (obs : Nat → PollObs) (cf : Nat → Bool) (fuel k : Nat),
      (monitorInstanceStatus obs cf fuel k).emitted.length ≤ 1 := by
    intro obs cf fuel
    induction fuel with
    | zero => intro k; simp [monitorInstanceStatus]
    | succ f ih =>
      intro k
      cases hobs : obs k with
      | refreshErr => simp [monitorInstanceStatus, hobs]
      | gone => simp [monitorInstanceStatus, hobs]
      | cached s p =>
        by_cases hc : (s != "PROVISIONING" && p != "STARTING") = true
        · cases hcf : cf k <;>
            simp [monitorInstanceStatus, hobs, hc, hcf]
        · simp only [monitorInstanceStatus, hobs, if_neg hc]
          exact ih (k + 1)
  refine ⟨?_, hlen, ?_, ?_⟩
  · intro obs cf fuel
    induction fuel with
    | zero => intro k h; simp [monitorInstanceStatus] at h
    | succ f ih =>
      intro k h
      cases hobs : obs k with
      | refreshErr => simp [monitorInstanceStatus, hobs] at h
      | gone => simp [monitorInstanceStatus, hobs] at h
      | cached s p =>
        by_cases hc : (s != "PROVISIONING" && p != "STARTING") = true
        · exact ⟨0, Nat.succ_pos f, by simpa [convergedObs, hobs] using hc⟩
        · simp only [monitorInstanceStatus, hobs, if_neg hc] at h
          obtain ⟨j, hj, hcv⟩ := ih (k + 1) h
          refine ⟨j + 1, Nat.succ_lt_succ hj, ?_⟩
          have hrw : k + (j + 1) = (k + 1) + j := by omega
          rw [hrw]
          exact hcv
  · intro obs cf fuel
    induction fuel with
    | zero => intro k; simp [monitorInstanceStatus]
    | succ f ih =>
      intro k
      cases hobs : obs k with
      | refreshErr => simp [monitorInstanceStatus, hobs]
      | gone => simp [monitorInstanceStatus, hobs]
      | cached s p =>
        by_cases hc : (s != "PROVISIONING" && p != "STARTING") = true
        · simp [monitorInstanceStatus, hobs, hc]
        · simp only [monitorInstanceStatus, hobs, if_neg hc]
          have := ih (k + 1)
          omega
  · intro obs cf fuel k j
    induction j generalizing fuel k with
    | zero =>
      intro hj _ hconv
      obtain ⟨f, rfl⟩ : ∃ f, fuel = f + 1 := ⟨fuel - 1, by omega⟩
      cases hobs : obs k with
      | refreshErr => rw [Nat.add_zero, hobs] at hconv; simp [convergedObs] at hconv
      | gone => rw [Nat.add_zero, hobs] at hconv; simp [convergedObs] at hconv
      | cached s p =>
        rw [Nat.add_zero, hobs] at hconv
        simp only [convergedObs] at hconv
        constructor
        · simp [monitorInstanceStatus, hobs, hconv]
        · exact hlen obs cf (f + 1) k
    | succ j ihj =>
      intro hj hprev hconv
      obtain ⟨f, rfl⟩ : ∃ f, fuel = f + 1 := ⟨fuel - 1, by omega⟩
      have h0 := hprev 0 (Nat.succ_pos j)
      rw [Nat.add_zero] at h0
      cases hobs : obs k with
      | refreshErr => rw [hobs] at h0; simp [silentExitObs] at h0
      | gone => rw [hobs] at h0; simp [silentExitObs] at h0
      | cached s p =>
        rw [hobs] at h0
        have hc : (s != "PROVISIONING" && p != "STARTING") = false := by
          simpa [convergedObs] using h0.1
        have hrec := ihj f (k + 1) (by omega)
          (by
            intro i hi
            have := hprev (i + 1) (by omega)
            have hrw : k + (i + 1) = (k + 1) + i := by omega
            rw [hrw] at this
            exact this)
          (by
            have hrw : (k + 1) + j = k + (j + 1) := by omega
            rw [hrw]
            exact hconv)
        constructor
        · simp only [monitorInstanceStatus, hobs, hc, Bool.false_eq_true, if_false]
          omega
        · exact hlen obs cf (f + 1) k

/-- Witness for C7: an observation stream that reports
PROVISIONING/STARTING on the first poll and ACTIVE/ACTIVE on the
second; the monitor with a five-tick deadline polls exactly twice and
emits at most one notification. -/
theorem claim7_monitor_bounded_witness :
    (monitorInstanceStatus
        (fun n => if n = 0 then .cached "PROVISIONING" "STARTING"
                  else .cached "ACTIVE" "ACTIVE")
        (fun _ => true) 5 0).polls = 2 ∧
    (monitorInstanceStatus
        (fun n => if n = 0 then .cached "PROVISIONING" "STARTING"
                  else .cached "ACTIVE" "ACTIVE")
        (fun _ => true) 5 0).emitted.length ≤ 1 := by
  exact claim7_monitor_bounded.2.2.2
    (fun n => if n = 0 then .cached "PROVISIONING" "STARTING"
              else .cached "ACTIVE" "ACTIVE")
    (fun _ => true) 5 0 1 (by decide)
    (by
      intro i hi
      have : i = 0 := by omega
      subst this
      exact ⟨by decide, by decide⟩)
    (by decide)

theorem diskStatusMap_lookup_unknown (p v : String)
    (h : diskStatusMap.lookup p = some v) : (v = "UNKNOWN" ↔ p = "Unknown") := by
  simp only [diskStatusMap, List.lookup] at h
  repeat' split at h
  all_goals (try simp_all)
  all_goals (cases h; decide)

theorem diskStatusOfPhase_spec (ph : Option GoVal) (s : String)
    (h : diskStatusOfPhase ph = .ok s) :
    (∀ p, ph = some (.vstr p) → diskStatusMap.lookup p = none → s = p) ∧
    (s = "UNKNOWN" ↔
      ph = none ∨ ph = some (.vstr "Unknown") ∨ ph = some (.vstr "UNKNOWN")) := by
  cases ph with
  | none =>
    simp only [diskStatusOfPhase, GoResult.ok.injEq] at h
    subst h
    refine ⟨?_, by simp⟩
    intro p hp
    cases hp
  | some v =>
    cases v with
    | vstr p =>
      simp only [diskStatusOfPhase] at h
      cases hl : diskStatusMap.lookup p with
      | none =>
        rw [hl] at h
        simp only [Option.getD_none, GoResult.ok.injEq] at h
        subst h
        refine ⟨?_, ?_⟩
        · intro p2 hp2 _
          simp only [Option.some.injEq, GoVal.vstr.injEq] at hp2
          exact hp2
        · constructor
          · intro hs
            exact Or.inr (Or.inr (by rw [hs]))
          · rintro (hc | hc | hc)
            · cases hc
            · simp only [Option.some.injEq, GoVal.vstr.injEq] at hc
              subst hc
              simp [diskStatusMap, List.lookup] at hl
            · simp only [Option.some.injEq, GoVal.vstr.injEq] at hc
              exact hc
      | some v2 =>
        rw [hl] at h
        simp only [Option.getD_some, GoResult.ok.injEq] at h
        subst h
        refine ⟨?_, ?_⟩
        · intro p2 hp2 hnone
          simp only [Option.some.injEq, GoVal.vstr.injEq] at hp2
          subst hp2
          rw [hl] at hnone
          cases hnone
        · have hu := diskStatusMap_lookup_unknown p v2 hl
          constructor
          · intro hs
            exact Or.inr (Or.inl (by rw [hu.mp hs]))
          · rintro (hc | hc | hc)
            · cases hc
            · simp only [Option.some.injEq, GoVal.vstr.injEq] at hc
              subst hc
              exact hu.mpr rfl
            · simp only [Option.some.injEq, GoVal.vstr.injEq] at hc
              subst hc
              simp [diskStatusMap, List.lookup] at hl
    | vnull => simp [diskStatusOfPhase] at h
    | vbool b => simp [diskStatusOfPhase] at h
    | vint n => simp [diskStatusOfPhase] at h
    | vlist xs => simp [diskStatusOfPhase] at h
    | vmap fs => simp [diskStatusOfPhase] at h

theorem phaseView_str_iff (obj : Obj) (p : String) :
    phaseView obj = .str p ↔ phaseOf obj = some (.vstr p) := by
  unfold phaseView
  cases hp : phaseOf obj with
  | none => simp
  | some v => cases v <;> simp

theorem phaseView_absent_iff (obj : Obj) :
    phaseView obj = .absent ↔ phaseOf obj = none := by
  unfold phaseView
  cases hp : phaseOf obj with
  | none => simp
  | some v => cases v <;> simp

/-- C10 (counterexample): a disk document whose `status.phase` is
present with value `"Unknown"` converts to a disk with status
`"UNKNOWN"`, so the domain status is UNKNOWN with the phase field
present — the claim that status is UNKNOWN only when the phase field is
absent is false. -/
theorem claim10_unknown_phase_counterexample :
    DiskManager.convertToDiskModel
      [("metadata", .vmap [("name", .vstr "d1")]),
       ("spec", .vmap [("storage", .vstr "20Gi")]),
       ("status", .vmap [("phase", .vstr "Unknown")])]
      = .ok ⟨"d1", 20, true, "UNKNOWN"⟩ ∧
    phaseView
      [("metadata", .vmap [("name", .vstr "d1")]),
       ("spec", .vmap [("storage", .vstr "20Gi")]),
       ("status", .vmap [("phase", .vstr "Unknown")])]
      = .str "Unknown" := by
  decide

/-- C10 (amended): in both disk converters, a phase string outside the
translation table is passed through verbatim as the disk status, and the
converted status is `"UNKNOWN"` exactly when the phase field is absent,
or is the table key `"Unknown"`, or is the literal string `"UNKNOWN"`
(passed through verbatim) — so domain disk statuses are indeed not a
closed enum. -/
theorem claim10_phase_passthrough :
    (∀ obj d, DiskManager.convertToDiskModel obj = .ok d →
       (∀ p, phaseView obj = .str p → diskStatusMap.lookup p = none →
          d.status = p) ∧
       (d.status = "UNKNOWN" ↔
          phaseView obj = .absent ∨ phaseView obj = .str "Unknown" ∨
          phaseView obj = .str "UNKNOWN")) ∧
    (∀ obj d, Adapter.convertToDiskModel obj = .ok d →
       (∀ p, phaseView obj = .str p → diskStatusMap.lookup p = none →
          d.status = p) ∧
       (d.status = "UNKNOWN" ↔
          phaseView obj = .absent ∨ phaseView obj = .str "Unknown" ∨
          phaseView obj = .str "UNKNOWN")) := by
  constructor
  · intro obj d h
    unfold DiskManager.convertToDiskModel at h
    cases hm : assertMap (lookupKey obj "metadata") with
    | crash m2 => simp [hm] at h
    | fail m2 => simp [hm] at h
    | ok metadata =>
      simp only [hm] at h
      cases hs : nestedMap obj "spec" with
      | missing => simp [hs] at h
      | typeErr => simp [hs] at h
      | found spec =>
        simp only [hs] at h
        cases hn : assertStr (lookupKey metadata "name") with
        | crash m2 => simp [hn] at h
        | fail m2 => simp [hn] at h
        | ok diskID =>
          simp only [hn] at h
          cases hst : diskStatusOfPhase
              (lookupKey (effNested (nestedMap obj "status")) "phase") with
          | crash m2 => simp [hst] at h
          | fail m2 => simp [hst] at h
          | ok stv =>
            simp only [hst, GoResult.ok.injEq] at h
            subst h
            have hspec := diskStatusOfPhase_spec _ stv hst
            refine ⟨?_, ?_⟩
            · intro p hpv hnone
              have hph : phaseOf obj = some (.vstr p) := (phaseView_str_iff obj p).mp hpv
              exact hspec.1 p hph hnone
            · rw [phaseView_absent_iff, phaseView_str_iff, phaseView_str_iff]
              exact hspec.2
  · intro obj d h
    unfold Adapter.convertToDiskModel at h
    cases hm : assertMap (lookupKey obj "metadata") with
    | crash m2 => simp [hm] at h
    | fail m2 => simp [hm] at h
    | ok metadata =>
      simp only [hm] at h
      cases hs : nestedMap obj "spec" with
      | missing => simp [hs] at h
      | typeErr => simp [hs] at h
      | found spec =>
        simp only [hs] at h
        cases hn : assertStr (lookupKey metadata "name") with
        | crash m2 => simp [hn] at h
        | fail m2 => simp [hn] at h
        | ok diskID =>
          simp only [hn] at h
          cases hst : diskStatusOfPhase
              (lookupKey (effNested (nestedMap obj "status")) "phase") with
          | crash m2 => simp [hst] at h
          | fail m2 => simp [hst] at h
          | ok stv =>
            simp only [hst, GoResult.ok.injEq] at h
            subst h
            have hspec := diskStatusOfPhase_spec _ stv hst
            refine ⟨?_, ?_⟩
            · intro p hpv hnone
              have hph : phaseOf obj = some (.vstr p) := (phaseView_str_iff obj p).mp hpv
              exact hspec.1 p hph hnone
            · rw [phaseView_absent_iff, phaseView_str_iff, phaseView_str_iff]
              exact hspec.2

/-- Witness for C10's amended theorem: the unmapped phase `"Resizing"`
is passed through verbatim. -/
theorem claim10_phase_passthrough_witness :
    DiskManager.convertToDiskModel
      [("metadata", .vmap [("name", .vstr "d2")]),
       ("spec", .vmap [("storage", .vstr "40Gi")]),
       ("status", .vmap [("phase", .vstr "Resizing")])]
      = .ok ⟨"d2", 40, true, "Resizing"⟩ ∧
    (⟨"d2", 40, true, "Resizing"⟩ : Disk).status = "Resizing" := by
  refine ⟨by decide, ?_⟩
  exact (claim10_phase_passthrough.1
    [("metadata", .vmap [("name", .vstr "d2")]),
     ("spec", .vmap [("storage", .vstr "40Gi")]),
     ("status", .vmap [("phase", .vstr "Resizing")])]
    ⟨"d2", 40, true, "Resizing"⟩ (by decide)).1 "Resizing" (by decide) (by decide)

/-- C9 (counterexample): requesting a resize of a 20Gi disk to
4294967296 GB (2^32, which exceeds the claimed quantification over
every requested size) is rejected — `int32(newSizeGB)` wraps to 0, the
validation `int32(newSizeGB) <= currentDisk.SizeGb` holds, and
ResizeDisk fails although the requested size strictly exceeds the
current size, with nothing updated. -/
theorem claim9_resize_overflow_counterexample :
    (DiskManager.ResizeDisk ⟨[("d1", ⟨"d1", 20, true, "ACTIVE"⟩)]⟩ "d1" 4294967296
        (.error "unused") none (.ok [("spec", .vmap [])]) none).1.isFail = true ∧
    (DiskManager.ResizeDisk ⟨[("d1", ⟨"d1", 20, true, "ACTIVE"⟩)]⟩ "d1" 4294967296
        (.error "unused") none (.ok [("spec", .vmap [])]) none).2.1 = [] ∧
    (DiskManager.ResizeDisk ⟨[("d1", ⟨"d1", 20, true, "ACTIVE"⟩)]⟩ "d1" 4294967296
        (.error "unused") none (.ok [("spec", .vmap [])]) none).2.2
      = ⟨[("d1", ⟨"d1", 20, true, "ACTIVE"⟩)]⟩ ∧
    (4294967296 : Int) > 20 := by
  refine ⟨?_, ?_, ?_, by decide⟩ <;> rfl

/-- C9 (amended): for a cached disk and a requested size within the
`int32` range, ResizeDisk fails without touching anything when the new
size does not exceed the current one, and when it does exceed it (and
the cluster get/update succeed) it updates the cluster resource's
storage to `"<newSizeGB>Gi"` and the cached disk's size becomes the new
size; outside the `int32` range the comparison uses the wrapped value,
as the counterexample shows. -/
theorem claim9_resize_validation :
    ∀ (st : DMState) (diskID : String) (d : Disk) (newSizeGB : Int)
      (apiRes : Except String Obj) (obj spec : Obj),
      st.diskCache.lookup diskID = some d →
      -(2 ^ 31) ≤ newSizeGB → newSizeGB < 2 ^ 31 →
      ((newSizeGB ≤ d.sizeGb →
        (DiskManager.ResizeDisk st diskID newSizeGB apiRes none (.ok obj) none).1.isFail
          = true ∧
        (DiskManager.ResizeDisk st diskID newSizeGB apiRes none (.ok obj) none).2.2
          = st) ∧
       (d.sizeGb < newSizeGB →
        nestedMap obj "spec" = .found spec →
        DiskManager.ResizeDisk st diskID newSizeGB apiRes none (.ok obj) none
          = (.ok { d with sizeGb := newSizeGB },
             [.getDisk diskID, .getDisk diskID,
              .updateDisk diskID (toString newSizeGB ++ "Gi")],
             ⟨upsert diskID { d with sizeGb := newSizeGB } st.diskCache⟩))) := by
  intro st diskID d newSizeGB apiRes obj spec hlk h1 h2
  have hw := toInt32_eq_self h1 h2
  constructor
  · intro hle
    unfold DiskManager.ResizeDisk
    simp only [DiskManager.GetDisk, hlk, hw, if_pos hle]
    exact ⟨rfl, by simp⟩
  · intro hgt hspec
    unfold DiskManager.ResizeDisk
    simp only [DiskManager.GetDisk, hlk, hw, if_neg (not_le.mpr hgt), hspec,
               lookup_upsert, if_pos rfl]
    simp

/-- Witness for C9's amended theorem: resizing a cached 20Gi disk to
15Gi fails with nothing updated, and resizing it to 40Gi leaves the
cached size at 40. -/
theorem claim9_resize_validation_witness :
    (DiskManager.ResizeDisk ⟨[("d1", ⟨"d1", 20, true, "ACTIVE"⟩)]⟩ "d1" 15
        (.error "unused") none (.ok [("spec", .vmap [])]) none).1.isFail = true ∧
    (DiskManager.ResizeDisk ⟨[("d1", ⟨"d1", 20, true, "ACTIVE"⟩)]⟩ "d1" 40
        (.error "unused") none (.ok [("spec", .vmap [])]) none).2.2.diskCache.lookup "d1"
      = some ⟨"d1", 40, true, "ACTIVE"⟩ := by
  constructor
  · exact ((claim9_resize_validation ⟨[("d1", ⟨"d1", 20, true, "ACTIVE"⟩)]⟩ "d1"
      ⟨"d1", 20, true, "ACTIVE"⟩ 15 (.error "unused") [("spec", .vmap [])] []
      (by decide) (by decide) (by decide)).1 (by decide)).1
  · have h := (claim9_resize_validation ⟨[("d1", ⟨"d1", 20, true, "ACTIVE"⟩)]⟩ "d1"
      ⟨"d1", 20, true, "ACTIVE"⟩ 40 (.error "unused") [("spec", .vmap [])] []
      (by decide) (by decide) (by decide)).2 (by decide) rfl
    rw [h]
    decide

end Cozystack
